import Mathlib

/-!
Shallow embedding of the KAPCI WhatsApp agent core (ticket lifecycle engine,
conversation orchestrator, keyword classifier) for checking the natural-language
specification against the source.

Conventions of the embedding:
* SQLAlchemy rows become Lean structures; the database session becomes an
  explicit `DB` value threaded through the operations.
* The string-typed enums of the source (`TicketStatus`, `TechnicalDecision`,
  `CompensationType`, `ConversationStep`) are kept as plain string values,
  exactly as the source stores and compares them.
* `datetime.utcnow()` / `datetime.now().year` and the random draws
  (`random.choices(string.digits, k=5)`, `random.choice([True, False])`) are
  passed in as explicit arguments (`now`, `year`, `digits`, `rng`).
* Python truthiness on optional strings (`if name`, `if notes`, `or`) is
  modelled by `optTruthy` / `orDefault`.
-/

namespace Kapci

/-- A customer row (`Customer` in `app/models`). -/
structure Customer where
  id : Nat
  phone_number : String
  customer_name : Option String
  has_kapci_account : Bool
  preferred_language : String
deriving DecidableEq

/-- A ticket row (`Ticket` in `app/models`). Timestamps are abstract `Nat`s. -/
structure Ticket where
  id : Nat
  ticket_number : String
  customer_id : Nat
  product_name : Option String
  product_sku : Option String
  purchase_date : Option String
  quantity : Nat
  issue_description : Option String
  issue_category : Option String
  photos : List String
  status : String
  priority : String
  assigned_technician_id : Option Nat
  technical_decision : String
  technical_notes : Option String
  technical_review_date : Option Nat
  compensation_type : Option String
  sales_order_number : Option String
  replacement_tracking : Option String
  created_at : Nat
  completed_at : Option Nat
deriving DecidableEq

/-- A technician row (`Technician` in `app/models`).  The workload is an `Int`
so that "never negative" is a real statement about the operations. -/
structure Technician where
  id : Nat
  name : String
  is_active : Bool
  current_workload : Int
  max_workload : Int
deriving DecidableEq

/-- A `TicketStatusHistory` row.  The source passes `None` for `new_status` on
assignment log rows, so both fields are optional here. -/
structure HistRow where
  ticket_id : Nat
  old_status : Option String
  new_status : Option String
  changed_by : String
  reason : Option String
deriving DecidableEq

/-- The text templates (`app/services/templates.py`) are an external
collaborator; their outputs are represented by tagged values carrying the
parameters the orchestrator passes in. -/
inductive Response where
  | greeting (lang : String)
  | askProduct (lang : String)
  | askIssue (lang : String)
  | askPhotos (lang : String)
  | confirmData (product issue lang : String)
  | confirmPrompt (lang : String)
  | ticketCreated (number lang : String)
  | restartThenAskProduct (lang : String)
  | cancelled (lang : String)
  | unknownReply (lang : String)
  | helpReply (lang : String)
  | thanksReply (lang : String)
  | ticketStatusReply (t : Ticket) (lang : String)
  | noTickets (lang : String)
  | ticketRejected (number reason lang : String)
  | approvedRefund (number lang : String)
  | approvedReplacement (number lang : String)
  | raw (s : String)
deriving DecidableEq

/-- A `Conversation` (message history) row. -/
structure ConvRow where
  customer_id : Nat
  direction : String
  content : Response
  message_type : String
deriving DecidableEq

/-- The `collected_data` JSON map of a conversation state, with the keys the
orchestrator actually stores. A missing key is `none`. -/
structure Collected where
  product_name : Option String
  issue_description : Option String
  issue_category : Option String
  photos : Option (List String)
deriving DecidableEq

/-- The empty `collected_data` map. -/
def emptyCollected : Collected :=
  { product_name := none, issue_description := none,
    issue_category := none, photos := none }

/-- A `ConversationState` row. -/
structure ConversationState where
  customer_id : Nat
  current_step : String
  current_ticket_id : Option Nat
  collected : Collected
  session_start : Nat
  last_message_at : Nat
deriving DecidableEq

/-- `ConversationState.reset` from `app/models`. -/
def resetState (st : ConversationState) (now : Nat) : ConversationState :=
  { st with current_step := "idle", current_ticket_id := none,
            collected := emptyCollected, session_start := now }

/-- The persistent store: every table plus the autoincrement counters. -/
structure DB where
  customers : List Customer
  tickets : List Ticket
  technicians : List Technician
  history : List HistRow
  conversations : List ConvRow
  states : List ConversationState
  nextTicketId : Nat
  nextCustomerId : Nat
deriving DecidableEq

/-- Python truthiness of an optional string (`None` and `""` are falsy). -/
def optTruthy (o : Option String) : Bool :=
  match o with
  | none => false
  | some s => s ≠ ""

/-- Python `x or d` on an optional string. -/
def orDefault (o : Option String) (d : String) : String :=
  if optTruthy o then o.getD "" else d

/-- Python string interpolation of an optional (`None` prints as `"None"`). -/
def pyStr (o : Option String) : String :=
  match o with
  | none => "None"
  | some s => s

/-- `Ticket.query.get(ticket_id)`. -/
def findTicket (db : DB) (ticket_id : Nat) : Option Ticket :=
  db.tickets.find? (fun t => t.id == ticket_id)

/-- `Technician.query.get(technician_id)`. -/
def findTech (db : DB) (technician_id : Nat) : Option Technician :=
  db.technicians.find? (fun t => t.id == technician_id)

/-- Customer lookup by primary key (the `ticket.customer` relationship). -/
def findCustomerById (db : DB) (customer_id : Nat) : Option Customer :=
  db.customers.find? (fun c => c.id == customer_id)

/-- In-place mutation of the ticket row with the given id. -/
def setTicket (db : DB) (ticket_id : Nat) (f : Ticket → Ticket) : DB :=
  { db with tickets := db.tickets.map (fun t => if t.id == ticket_id then f t else t) }

/-- In-place mutation of the technician row with the given id. -/
def setTech (db : DB) (technician_id : Nat) (f : Technician → Technician) : DB :=
  { db with technicians :=
      db.technicians.map (fun t => if t.id == technician_id then f t else t) }

/-- `TicketService._log_status_change`: append an audit row. -/
def logStatusChange (db : DB) (ticket_id : Nat) (old_status new_status : Option String)
    (changed_by : String) (reason : Option String) : DB :=
  { db with history := db.history ++
      [{ ticket_id := ticket_id, old_status := old_status, new_status := new_status,
         changed_by := changed_by, reason := reason }] }

/-- `Ticket.generate_ticket_number`: `f"TKT-{year}-{random_part}"` where
`random_part` is the five randomly chosen digit characters. -/
def generateTicketNumber (year : Nat) (digits : List Char) : String :=
  "TKT-" ++ Nat.repr year ++ "-" ++ String.mk digits

/-- The ticket `data` dict passed to `create_ticket`, with the `.get` defaults
of the source. -/
structure TicketData where
  product_name : Option String := none
  product_sku : Option String := none
  purchase_date : Option String := none
  quantity : Nat := 1
  issue_description : Option String := none
  issue_category : Option String := none
  photos : List String := []
  priority : String := "normal"
deriving DecidableEq

/-- `Technician.query.filter_by(is_active=True).filter(workload < max)
.order_by(workload.asc()).first()`: the first technician with minimal workload
among active ones below capacity (list order breaks ties). -/
def autoSelect (ts : List Technician) : Option Technician :=
  (ts.filter (fun t => t.is_active && t.current_workload < t.max_workload)).foldl
    (fun acc t =>
      match acc with
      | none => some t
      | some b => if t.current_workload < b.current_workload then some t else acc)
    none

/-- `TicketService.assign_technician`.  An explicit id of `0` is falsy in
Python and falls back to auto-selection, mirroring `if technician_id:`. -/
def assignTechnician (db : DB) (ticket_id : Nat) (technician_id : Option Nat) : DB :=
  match findTicket db ticket_id with
  | none => db
  | some _ =>
    let tech :=
      match technician_id with
      | some i => if i == 0 then autoSelect db.technicians else findTech db i
      | none => autoSelect db.technicians
    match tech with
    | none => db
    | some te =>
      let db1 := setTicket db ticket_id (fun t => { t with assigned_technician_id := some te.id })
      let db2 := setTech db1 te.id (fun x => { x with current_workload := x.current_workload + 1 })
      logStatusChange db2 ticket_id none none "System"
        (some ("Assigned to technician: " ++ te.name))

/-- The row built by `TicketService.create_ticket` before persisting. -/
def newTicketRow (db : DB) (customer_id : Nat) (data : TicketData)
    (year : Nat) (digits : List Char) (now : Nat) : Ticket :=
  { id := db.nextTicketId,
    ticket_number := generateTicketNumber year digits,
    customer_id := customer_id,
    product_name := data.product_name,
    product_sku := data.product_sku,
    purchase_date := data.purchase_date,
    quantity := data.quantity,
    issue_description := data.issue_description,
    issue_category := data.issue_category,
    photos := data.photos,
    status := "pending_review",
    priority := data.priority,
    assigned_technician_id := none,
    technical_decision := "pending",
    technical_notes := none,
    technical_review_date := none,
    compensation_type := none,
    sales_order_number := none,
    replacement_tracking := none,
    created_at := now,
    completed_at := none }

/-- `TicketService.create_ticket`: build the row, persist it, log the creation
row, then auto-assign.  `Ticket.ticket_number` is a `unique=True` column, so
committing a row whose generated number is already taken raises
`IntegrityError`: the first component is `none`, nothing is persisted, and the
store is returned unchanged.  On a fresh number the (possibly
assignment-updated) row is returned. -/
def createTicket (db : DB) (customer_id : Nat) (data : TicketData)
    (year : Nat) (digits : List Char) (now : Nat) : Option Ticket × DB :=
  let ticket : Ticket := newTicketRow db customer_id data year digits now
  if db.tickets.any (fun tk => tk.ticket_number == ticket.ticket_number) then
    (none, db)
  else
    let db1 : DB := { db with tickets := db.tickets ++ [ticket],
                              nextTicketId := db.nextTicketId + 1 }
    let db2 := logStatusChange db1 ticket.id none (some "pending_review") "System"
        (some "Ticket created")
    let db3 := assignTechnician db2 ticket.id none
    (some ((findTicket db3 ticket.id).getD ticket), db3)

/-- `TicketService.update_status`: the prior status is read before the row is
mutated, and `completed_at` is stamped only when the new status is COMPLETED. -/
def updateStatus (db : DB) (ticket_id : Nat) (new_status : String)
    (changed_by : String) (reason : Option String) (now : Nat) : DB :=
  match findTicket db ticket_id with
  | none => db
  | some ticket =>
    let old_status := ticket.status
    let db1 := setTicket db ticket_id (fun t =>
      { t with status := new_status,
               completed_at := if new_status == "completed" then some now else t.completed_at })
    logStatusChange db1 ticket_id (some old_status) (some new_status) changed_by reason

/-- `TicketService.route_to_compensation`.  The audit rows hard-code the old
status as APPROVED, as the source does. -/
def routeToCompensation (db : DB) (ticket_id : Nat) : DB :=
  match findTicket db ticket_id with
  | none => db
  | some ticket =>
    let hasAcct :=
      match findCustomerById db ticket.customer_id with
      | some c => c.has_kapci_account
      | none => false
    if hasAcct then
      let db1 := setTicket db ticket_id (fun t =>
        { t with compensation_type := some "refund", status := "pending_finance" })
      logStatusChange db1 ticket_id (some "approved") (some "pending_finance") "System"
        (some "Routed to Finance for refund")
    else
      let db1 := setTicket db ticket_id (fun t =>
        { t with compensation_type := some "replacement", status := "pending_inventory" })
      logStatusChange db1 ticket_id (some "approved") (some "pending_inventory") "System"
        (some "Routed to Inventory for replacement")

/-- The `ticket.assigned_technician` ORM relationship: resolve the assigned
technician row, if any. -/
def assignedTechOf (db : DB) (t : Ticket) : Option Technician :=
  match t.assigned_technician_id with
  | some aid => findTech db aid
  | none => none

/-- `TicketService.record_technical_decision`.  Note two faithful quirks of the
source: the rejection branch assigns `ticket.status = REJECTED` *before*
logging and then logs `ticket.status` as the old status, so the audit row
carries `old = new = "rejected"`; and any decision other than `"rejected"`
falls into the compensation-routing branch. -/
def recordTechnicalDecision (db : DB) (ticket_id : Nat) (decision : String)
    (notes : Option String) (technician_id : Option Nat) (now : Nat) :
    Option Ticket × DB :=
  match findTicket db ticket_id with
  | none => (none, db)
  | some ticket =>
    let _ := technician_id
    let db1 := setTicket db ticket_id (fun t =>
      { t with technical_decision := decision, technical_notes := notes,
               technical_review_date := some now })
    let assignedTech := assignedTechOf db1 ticket
    let db2 :=
      match assignedTech with
      | some te => setTech db1 te.id (fun x =>
          { x with current_workload := max 0 (x.current_workload - 1) })
      | none => db1
    if decision == "rejected" then
      let db3 := setTicket db2 ticket_id (fun t => { t with status := "rejected" })
      let changed_by :=
        match assignedTech with
        | some te => te.name
        | none => "Technical Team"
      -- the source logs `ticket.status` here, already overwritten to "rejected"
      let db4 := logStatusChange db3 ticket_id (some "rejected") (some "rejected")
          changed_by (some ("Rejected: " ++ pyStr notes))
      (findTicket db4 ticket_id, db4)
    else
      let db3 := routeToCompensation db2 ticket_id
      (findTicket db3 ticket_id, db3)

/-- `TicketService.process_finance_approval` (old status hard-coded to
PENDING_FINANCE by the source). -/
def processFinanceApproval (db : DB) (ticket_id : Nat) (sales_order : Option String) : DB :=
  match findTicket db ticket_id with
  | none => db
  | some _ =>
    let db1 := setTicket db ticket_id (fun t =>
      { t with sales_order_number := sales_order, status := "finance_approved" })
    logStatusChange db1 ticket_id (some "pending_finance") (some "finance_approved")
      "Finance Team" (some ("Sales order created: " ++ pyStr sales_order))

/-- `TicketService.process_inventory_preparation` (old status hard-coded to
PENDING_INVENTORY by the source). -/
def processInventoryPreparation (db : DB) (ticket_id : Nat) (tracking : Option String) : DB :=
  match findTicket db ticket_id with
  | none => db
  | some _ =>
    let db1 := setTicket db ticket_id (fun t =>
      { t with replacement_tracking := tracking, status := "inventory_prepared" })
    logStatusChange db1 ticket_id (some "pending_inventory") (some "inventory_prepared")
      "Inventory Team" (some ("Replacement prepared. Tracking: " ++ pyStr tracking))

/-- `TicketService.complete_ticket`. -/
def completeTicket (db : DB) (ticket_id : Nat) (completed_by : String) (now : Nat) : DB :=
  match findTicket db ticket_id with
  | none => db
  | some ticket =>
    let old_status := ticket.status
    let db1 := setTicket db ticket_id (fun t =>
      { t with status := "completed", completed_at := some now })
    logStatusChange db1 ticket_id (some old_status) (some "completed") completed_by
      (some "Ticket completed")

/-! ### AI service (`app/services/ai_service.py`) -/

/-- ASCII lowercasing of one character (Python `str.lower` on the ASCII range,
which is all the keyword tables use). -/
def asciiLower (c : Char) : Char :=
  if 65 ≤ c.toNat ∧ c.toNat ≤ 90 then Char.ofNat (c.toNat + 32) else c

/-- Whitespace for Python `str.strip` (ASCII subset). -/
def isWsp (c : Char) : Bool :=
  c == ' ' || c == '\t' || c == '\n' || c == '\r'

/-- `message.lower().strip()` as a character list. -/
def lowerTrim (s : String) : List Char :=
  (((s.data.map asciiLower).dropWhile isWsp).reverse.dropWhile isWsp).reverse

/-- `needle` is a leading segment of `hay`. -/
def leadsWith : List Char → List Char → Bool
  | [], _ => true
  | _ :: _, [] => false
  | a :: as, b :: bs => a == b && leadsWith as bs

/-- Python `needle in hay` substring test on character lists. -/
def hasSub (needle : List Char) : List Char → Bool
  | [] => leadsWith needle []
  | c :: rest => leadsWith needle (c :: rest) || hasSub needle rest

/-- Does any keyword of the list occur in the (already lowered) message? -/
def anyKeyword (kws : List String) (m : List Char) : Bool :=
  kws.any (fun k => hasSub k.data m)

/-- `AIService.INTENT_KEYWORDS`, in dict insertion order. -/
def intentTable : List (String × List String) :=
  [("greeting",
    ["hello", "hi", "hey", "good morning", "good evening",
     "السلام عليكم", "مرحبا", "اهلا", "صباح الخير", "مساء الخير", "هلا"]),
   ("new_complaint",
    ["complaint", "problem", "issue", "defect", "broken", "damaged", "wrong",
     "شكوى", "مشكلة", "عطل", "خراب", "تالف", "معيب", "غلط", "مش شغال",
     "1", "one", "واحد"]),
   ("check_status",
    ["status", "track", "follow up", "where", "check",
     "متابعة", "حالة", "تتبع", "فين", "وصلت فين",
     "2", "two", "اتنين"]),
   ("provide_info", []),
   ("send_photo",
    ["photo", "image", "picture", "attached", "صورة", "صور"]),
   ("confirm_yes",
    ["yes", "yeah", "yep", "ok", "okay", "correct", "right", "confirm", "sure",
     "نعم", "اه", "ايه", "ايوه", "صح", "تمام", "موافق", "اكيد", "ماشي"]),
   ("confirm_no",
    ["no", "nope", "wrong", "incorrect", "change", "edit",
     "لا", "لأ", "غلط", "مش صح", "تعديل", "غير"]),
   ("skip",
    ["skip", "no photo", "no photos", "none", "nothing", "done",
     "تخطي", "مفيش", "تم", "بدون", "لا صور", "مش هبعت"]),
   ("cancel",
    ["cancel", "stop", "quit", "exit", "bye",
     "الغاء", "الغي", "وقف", "خلاص", "مع السلامة"]),
   ("help",
    ["help", "assist", "support", "how", "مساعدة", "ساعدني", "ازاي", "كيف"]),
   ("thanks",
    ["thanks", "thank you", "thx", "شكرا", "متشكر"])]

/-- Keywords of one intent in the table. -/
def intentKeywords (name : String) : List String :=
  match intentTable.find? (fun p => p.1 == name) with
  | some p => p.2
  | none => []

/-- First table entry (in order) with a keyword occurring in the message. -/
def firstMatchTable (m : List Char) (dflt : String) :
    List (String × List String) → String
  | [] => dflt
  | (name, kws) :: rest =>
    if anyKeyword kws m then name else firstMatchTable m dflt rest

/-- `AIService.classify_intent`: step-aware keyword classification. -/
def classifyIntent (message : String) (current_step : String) : String :=
  let m := lowerTrim message
  if current_step == "collecting_product" ∨ current_step == "collecting_issue" ∨
     current_step == "collecting_name" ∨ current_step == "collecting_purchase_date" ∨
     current_step == "collecting_quantity" then
    "provide_info"
  else if current_step == "collecting_photos" then
    if anyKeyword (intentKeywords "skip") m then "skip" else "provide_info"
  else if current_step == "confirming_data" then
    if anyKeyword (intentKeywords "confirm_yes") m then "confirm_yes"
    else if anyKeyword (intentKeywords "confirm_no") m then "confirm_no"
    else "unknown"
  else
    firstMatchTable m "unknown" intentTable

/-- A character of the Arabic script block `[؀-ۿ]`. -/
def isArabicChar (c : Char) : Bool :=
  0x0600 ≤ c.toNat && c.toNat ≤ 0x06FF

/-- A Latin letter `[a-zA-Z]`. -/
def isLatinChar (c : Char) : Bool :=
  (65 ≤ c.toNat && c.toNat ≤ 90) || (97 ≤ c.toNat && c.toNat ≤ 122)

/-- Count of Arabic-script characters in a message. -/
def arabicCount (message : String) : Nat :=
  (message.data.filter isArabicChar).length

/-- Count of Latin letters in a message. -/
def latinCount (message : String) : Nat :=
  (message.data.filter isLatinChar).length

/-- `AIService.detect_language`. -/
def detectLanguage (message : String) : String :=
  if arabicCount message > latinCount message then "ar" else "en"

/-- `AIService.suggest_issue_category`'s keyword table, in dict order. -/
def categoryTable : List (String × List String) :=
  [("quality", ["quality", "defect", "broken", "damaged", "جودة", "معيب", "مكسور"]),
   ("wrong_product", ["wrong", "different", "not what", "غلط", "مختلف"]),
   ("missing_parts", ["missing", "incomplete", "ناقص", "مش كامل"]),
   ("not_working", ["not working", "doesnt work", "مش شغال", "مش بيشتغل"]),
   ("expired", ["expired", "old", "منتهي", "قديم"]),
   ("packaging", ["packaging", "box", "تغليف", "علبة"])]

/-- `AIService.suggest_issue_category` (lowercases but does not strip). -/
def suggestIssueCategory (description : String) : String :=
  firstMatchTable (description.data.map asciiLower) "other" categoryTable

/-- The entity map produced by `AIService.extract_entities`; the orchestrator
only ever reads `ticket_number`. -/
structure Entities where
  ticket_number : Option String := none
  phone : Option String := none
  date : Option String := none
  quantity : Option Nat := none
  email : Option String := none
deriving DecidableEq

/-! ### Workflow orchestrator (`app/services/workflow_service.py`) -/

/-- `WorkflowService._save_message`. -/
def saveMessage (db : DB) (customer_id : Nat) (direction : String)
    (content : Response) (message_type : String) : DB :=
  { db with conversations := db.conversations ++
      [{ customer_id := customer_id, direction := direction,
         content := content, message_type := message_type }] }

/-- `WorkflowService._get_or_create_customer`.  The account flag of a freshly
created customer is `random.choice([True, False])`; the draw is the explicit
`rng` argument. -/
def getOrCreateCustomer (db : DB) (phone : String) (name : Option String)
    (rng : Bool) : Customer × DB :=
  match db.customers.find? (fun c => c.phone_number == phone) with
  | some c =>
    if optTruthy name && !(optTruthy c.customer_name) then
      let c1 := { c with customer_name := name }
      (c1, { db with customers :=
               db.customers.map (fun x => if x.id == c.id then c1 else x) })
    else (c, db)
  | none =>
    let c : Customer :=
      { id := db.nextCustomerId, phone_number := phone, customer_name := name,
        has_kapci_account := rng, preferred_language := "ar" }
    (c, { db with customers := db.customers ++ [c],
                  nextCustomerId := db.nextCustomerId + 1 })

/-- `WorkflowService._handle_status_check`: by extracted ticket number if
present, else the customer's most recent ticket. -/
def handleStatusCheck (db : DB) (customer : Customer) (entities : Entities)
    (lang : String) : Response :=
  let ticket :=
    match entities.ticket_number with
    | some n => db.tickets.find? (fun t => t.ticket_number == n)
    | none =>
      (db.tickets.filter (fun t => t.customer_id == customer.id)).foldl
        (fun acc t =>
          match acc with
          | none => some t
          | some b => if b.created_at < t.created_at then some t else acc)
        none
  match ticket with
  | some t => Response.ticketStatusReply t lang
  | none => Response.noTickets lang

/-- `WorkflowService._route_message`: the per-step dispatch.  The cancel check
sits after the step-specific `if`/`elif` chain, exactly as in the source, so it
is only reachable from steps without a specific branch. -/
def routeMessage (db : DB) (customer : Customer) (st : ConversationState)
    (intent message : String) (entities : Entities) (message_type : String)
    (media_id : Option String) (now year : Nat) (digits : List Char) :
    DB × ConversationState × Response :=
  let lang := customer.preferred_language
  if st.current_step == "idle" then
    if intent == "greeting" then (db, st, Response.greeting lang)
    else if intent == "new_complaint" then
      (db, { st with current_step := "collecting_product", collected := emptyCollected },
       Response.askProduct lang)
    else if intent == "check_status" then
      (db, st, handleStatusCheck db customer entities lang)
    else if intent == "help" then (db, st, Response.helpReply lang)
    else if intent == "thanks" then (db, st, Response.thanksReply lang)
    else (db, st, Response.greeting lang)
  else if st.current_step == "collecting_product" then
    let cd := { st.collected with product_name := some message }
    (db, { st with collected := cd, current_step := "collecting_issue" },
     Response.askIssue lang)
  else if st.current_step == "collecting_issue" then
    let cd := { st.collected with issue_description := some message,
                                  issue_category := some (suggestIssueCategory message) }
    (db, { st with collected := cd, current_step := "collecting_photos" },
     Response.askPhotos lang)
  else if st.current_step == "collecting_photos" then
    let cd :=
      if intent == "skip" then { st.collected with photos := some [] }
      else if message_type == "image" && optTruthy media_id then
        { st.collected with photos := some ((st.collected.photos.getD []) ++ [media_id.getD ""]) }
      else { st.collected with photos := some [] }
    (db, { st with collected := cd, current_step := "confirming_data" },
     Response.confirmData (cd.product_name.getD "-") (cd.issue_description.getD "-") lang)
  else if st.current_step == "confirming_data" then
    if intent == "confirm_yes" then
      let data : TicketData :=
        { product_name := st.collected.product_name,
          issue_description := st.collected.issue_description,
          issue_category := st.collected.issue_category,
          photos := st.collected.photos.getD [] }
      match createTicket db customer.id data year digits now with
      | (some t, db2) =>
        (db2,
         { st with current_step := "idle", collected := emptyCollected,
                   current_ticket_id := some t.id },
         Response.ticketCreated t.ticket_number lang)
      | (none, db2) =>
        (db2, st, Response.raw "IntegrityError")
    else if intent == "confirm_no" then
      (db, { st with current_step := "collecting_product", collected := emptyCollected },
       Response.restartThenAskProduct lang)
    else (db, st, Response.confirmPrompt lang)
  else if intent == "cancel" then
    (db, resetState st now, Response.cancelled lang)
  else
    (db, st, Response.unknownReply lang)

/-- Result of `WorkflowService.handle_technical_decision`: the `(ok, text)`
pair returned to the caller, the mutated store, and whether the outbound
WhatsApp send actually went through (the external side effect). -/
structure TDResult where
  ok : Bool
  notification : Response
  db : DB
  delivered : Bool
deriving DecidableEq

/-- `WorkflowService.handle_technical_decision`.  `sendFails` says whether
`whatsapp_service.send_text_message` raises; the source wraps the call in
`try/except: pass`, so processing continues identically either way. -/
def handleTechnicalDecision (db : DB) (ticket_id : Nat) (decision : String)
    (notes : Option String) (technician_id : Option Nat) (now : Nat)
    (sendFails : Bool) : TDResult :=
  let rec1 := recordTechnicalDecision db ticket_id decision notes technician_id now
  match rec1.1 with
  | none =>
    { ok := false, notification := Response.raw "Ticket not found",
      db := rec1.2, delivered := false }
  | some ticket =>
    let db1 := rec1.2
    let customer := findCustomerById db1 ticket.customer_id
    let lang :=
      match customer with
      | some c => c.preferred_language
      | none => "ar"
    let notification :=
      if decision == "rejected" then
        Response.ticketRejected ticket.ticket_number (orDefault notes "No issue found") lang
      else if ticket.compensation_type == some "refund" then
        Response.approvedRefund ticket.ticket_number lang
      else
        Response.approvedReplacement ticket.ticket_number lang
    let delivered :=
      match customer with
      | some c => if c.phone_number ≠ "" then !sendFails else false
      | none => false
    let db2 :=
      match customer with
      | some c => saveMessage db1 c.id "outbound" notification "text"
      | none => db1
    { ok := true, notification := notification, db := db2, delivered := delivered }

/-! ### API route (`app/routes/api.py`) -/

/-- `POST /tickets/<id>/decision` (`make_decision`): validates the decision
value before touching the workflow; returns the HTTP status code and the
resulting store. -/
def makeDecision (db : DB) (ticket_id : Nat) (decision : Option String)
    (reason : String) (technician_id : Option Nat) (now : Nat)
    (sendFails : Bool) : Nat × DB :=
  if decision ≠ some "approved" ∧ decision ≠ some "rejected" then
    (400, db)
  else
    let r := handleTechnicalDecision db ticket_id (decision.getD "") (some reason)
        technician_id now sendFails
    if r.ok then (200, r.db) else (404, r.db)

/-! ### Operation sequences over the ticket store -/

/-- One call to the ticket service, with all the external inputs (clock and
random draws) made explicit. -/
inductive Op where
  | create (customer_id : Nat) (data : TicketData) (year : Nat)
      (digits : List Char) (now : Nat)
  | updStatus (ticket_id : Nat) (new_status changed_by : String)
      (reason : Option String) (now : Nat)
  | assign (ticket_id : Nat) (technician_id : Option Nat)
  | record (ticket_id : Nat) (decision : String) (notes : Option String)
      (technician_id : Option Nat) (now : Nat)
  | route (ticket_id : Nat)
  | finance (ticket_id : Nat) (sales_order : Option String)
  | inventory (ticket_id : Nat) (tracking : Option String)
  | complete (ticket_id : Nat) (completed_by : String) (now : Nat)

/-- Apply one ticket-service operation to the store. -/
def applyOp (db : DB) : Op → DB
  | Op.create cid data year digits now => (createTicket db cid data year digits now).2
  | Op.updStatus tid s cb r now => updateStatus db tid s cb r now
  | Op.assign tid techId => assignTechnician db tid techId
  | Op.record tid d notes techId now => (recordTechnicalDecision db tid d notes techId now).2
  | Op.route tid => routeToCompensation db tid
  | Op.finance tid so => processFinanceApproval db tid so
  | Op.inventory tid tr => processInventoryPreparation db tid tr
  | Op.complete tid cb now => completeTicket db tid cb now

/-- Apply a sequence of ticket-service operations. -/
def applyOps (db : DB) (ops : List Op) : DB :=
  ops.foldl applyOp db

/-! ### The wire-format contract `^TKT-\d{4}-\d{5}$` -/

/-- Consume exactly `k` decimal-digit characters, returning the remainder. -/
def checkDigits : Nat → List Char → Option (List Char)
  | 0, l => some l
  | _ + 1, [] => none
  | k + 1, c :: l => if c.isDigit then checkDigits k l else none

/-- Decider for the spec's ticket-number pattern `^TKT-\d{4}-\d{5}$`. -/
def isTicketNumberFormat (s : String) : Bool :=
  match s.data with
  | 'T' :: 'K' :: 'T' :: '-' :: rest =>
    match checkDigits 4 rest with
    | some ('-' :: rest2) =>
      match checkDigits 5 rest2 with
      | some [] => true
      | _ => false
    | _ => false
  | _ => false

/-- Reference decimal-digit expansion used to reason about `Nat.repr`
(least-significant digit computed first, accumulated in front). -/
def decChars (n : Nat) (ds : List Char) : List Char :=
  let d := Nat.digitChar (n % 10)
  if _h : n / 10 = 0 then d :: ds else decChars (n / 10) (d :: ds)
termination_by n
decreasing_by
  omega

/-! ### Concrete sample data for witnesses and counterexamples -/

/-- The empty entity map. -/
def noEntities : Entities := {}

/-- A store with no rows. -/
def emptyDb : DB :=
  { customers := [], tickets := [], technicians := [], history := [],
    conversations := [], states := [], nextTicketId := 1, nextCustomerId := 1 }

/-- Sample customer that has a KAPCI account. -/
def sampleCustomer : Customer :=
  { id := 1, phone_number := "+20100000001", customer_name := none,
    has_kapci_account := true, preferred_language := "ar" }

/-- Sample unassigned ticket under review, owned by `sampleCustomer`. -/
def sampleTicket : Ticket :=
  { id := 1, ticket_number := "TKT-2025-12345", customer_id := 1,
    product_name := some "Paint 5L", product_sku := none, purchase_date := none,
    quantity := 1, issue_description := some "broken", issue_category := some "quality",
    photos := [], status := "under_review", priority := "normal",
    assigned_technician_id := none, technical_decision := "pending",
    technical_notes := none, technical_review_date := none, compensation_type := none,
    sales_order_number := none, replacement_tracking := none,
    created_at := 0, completed_at := none }

/-- Sample active technician with free capacity. -/
def sampleTech : Technician :=
  { id := 1, name := "Ahmed Mohamed", is_active := true,
    current_workload := 0, max_workload := 15 }

/-- Sample store: one customer, one ticket under review, one technician. -/
def sampleDb : DB :=
  { customers := [sampleCustomer], tickets := [sampleTicket],
    technicians := [sampleTech], history := [], conversations := [], states := [],
    nextTicketId := 2, nextCustomerId := 2 }

/-- Sample conversation state sitting at step `IDLE`. -/
def idleState : ConversationState :=
  { customer_id := 1, current_step := "idle", current_ticket_id := none,
    collected := emptyCollected, session_start := 0, last_message_at := 0 }

/-- Sample conversation state sitting at the unwired step `GREETING`. -/
def greetState : ConversationState :=
  { idleState with current_step := "greeting" }

/-- End-to-end probe for the randomness of customer creation: create the
customer for a fresh phone with the given random draw, file a ticket for them,
record an approved technical decision, and report the ticket's resulting
status and compensation type. -/
def firstContactOutcome (rng : Bool) : String × Option String :=
  let g := getOrCreateCustomer emptyDb "+20100000002" none rng
  let cr := createTicket g.2 g.1.id { product_name := some "Paint" } 2025
      ['0', '0', '0', '0', '1'] 10
  match cr.1 with
  | none => ("missing", none)
  | some ct =>
    let r := recordTechnicalDecision cr.2 ct.id "approved" none none 11
    match r.1 with
    | some t => (t.status, t.compensation_type)
    | none => ("missing", none)

/-! ### Basic lemmas about the store operations -/

@[simp]
theorem customers_setTicket (db : DB) (tid : Nat) (f : Ticket → Ticket) :
    (setTicket db tid f).customers = db.customers := rfl

@[simp]
theorem technicians_setTicket (db : DB) (tid : Nat) (f : Ticket → Ticket) :
    (setTicket db tid f).technicians = db.technicians := rfl

@[simp]
theorem history_setTicket (db : DB) (tid : Nat) (f : Ticket → Ticket) :
    (setTicket db tid f).history = db.history := rfl

@[simp]
theorem conversations_setTicket (db : DB) (tid : Nat) (f : Ticket → Ticket) :
    (setTicket db tid f).conversations = db.conversations := rfl

@[simp]
theorem tickets_setTech (db : DB) (i : Nat) (f : Technician → Technician) :
    (setTech db i f).tickets = db.tickets := rfl

@[simp]
theorem customers_setTech (db : DB) (i : Nat) (f : Technician → Technician) :
    (setTech db i f).customers = db.customers := rfl

@[simp]
theorem history_setTech (db : DB) (i : Nat) (f : Technician → Technician) :
    (setTech db i f).history = db.history := rfl

@[simp]
theorem conversations_setTech (db : DB) (i : Nat) (f : Technician → Technician) :
    (setTech db i f).conversations = db.conversations := rfl

@[simp]
theorem tickets_log (db : DB) (tid : Nat) (o n : Option String) (cb : String)
    (r : Option String) : (logStatusChange db tid o n cb r).tickets = db.tickets := rfl

@[simp]
theorem customers_log (db : DB) (tid : Nat) (o n : Option String) (cb : String)
    (r : Option String) : (logStatusChange db tid o n cb r).customers = db.customers := rfl

@[simp]
theorem technicians_log (db : DB) (tid : Nat) (o n : Option String) (cb : String)
    (r : Option String) : (logStatusChange db tid o n cb r).technicians = db.technicians := rfl

@[simp]
theorem conversations_log (db : DB) (tid : Nat) (o n : Option String) (cb : String)
    (r : Option String) :
    (logStatusChange db tid o n cb r).conversations = db.conversations := rfl

@[simp]
theorem history_log (db : DB) (tid : Nat) (o n : Option String) (cb : String)
    (r : Option String) :
    (logStatusChange db tid o n cb r).history = db.history ++
      [{ ticket_id := tid, old_status := o, new_status := n,
         changed_by := cb, reason := r }] := rfl

@[simp]
theorem tickets_saveMessage (db : DB) (cid : Nat) (dir : String) (content : Response)
    (mt : String) : (saveMessage db cid dir content mt).tickets = db.tickets := rfl

@[simp]
theorem history_saveMessage (db : DB) (cid : Nat) (dir : String) (content : Response)
    (mt : String) : (saveMessage db cid dir content mt).history = db.history := rfl

@[simp]
theorem conversations_saveMessage (db : DB) (cid : Nat) (dir : String)
    (content : Response) (mt : String) :
    (saveMessage db cid dir content mt).conversations =
      db.conversations ++ [{ customer_id := cid, direction := dir,
                             content := content, message_type := mt }] := rfl

@[simp]
theorem newTicketRow_id (db : DB) (cid : Nat) (data : TicketData) (year : Nat)
    (digits : List Char) (now : Nat) :
    (newTicketRow db cid data year digits now).id = db.nextTicketId := rfl

/-- Looking a ticket up after an id-preserving in-place update sees the
updated row. -/
theorem findTicket_setTicket (db : DB) (tid : Nat) (f : Ticket → Ticket)
    (hid : ∀ x, (f x).id = x.id) :
    findTicket (setTicket db tid f) tid = (findTicket db tid).map f := by
  unfold findTicket setTicket
  rw [show ({ db with tickets :=
        db.tickets.map (fun t => if t.id == tid then f t else t) } : DB).tickets =
      db.tickets.map (fun t => if t.id == tid then f t else t) from rfl]
  rw [List.find?_map]
  have hp : ((fun t : Ticket => t.id == tid) ∘ fun t => if t.id == tid then f t else t) =
      fun t : Ticket => t.id == tid := by
    funext x
    by_cases h : x.id == tid
    · simp [Function.comp, h, hid]
    · simp [Function.comp, h]
  rw [hp]
  cases hfind : List.find? (fun t : Ticket => t.id == tid) db.tickets with
  | none => rfl
  | some t =>
    have ht : (t.id == tid) = true :=
      List.find?_some (p := fun t : Ticket => t.id == tid) hfind
    show some (if t.id == tid then f t else t) = some (f t)
    rw [if_pos ht]

/-- Ticket lookups are untouched by technician updates. -/
theorem findTicket_setTech (db : DB) (i : Nat) (f : Technician → Technician)
    (tid : Nat) : findTicket (setTech db i f) tid = findTicket db tid := rfl

/-- Ticket lookups are untouched by audit appends. -/
theorem findTicket_log (db : DB) (tid' : Nat) (o n : Option String) (cb : String)
    (r : Option String) (tid : Nat) :
    findTicket (logStatusChange db tid' o n cb r) tid = findTicket db tid := rfl

/-- Customer lookups are untouched by ticket updates. -/
theorem findCustomerById_setTicket (db : DB) (tid : Nat) (f : Ticket → Ticket)
    (cid : Nat) : findCustomerById (setTicket db tid f) cid = findCustomerById db cid := rfl

/-- Customer lookups are untouched by technician updates. -/
theorem findCustomerById_setTech (db : DB) (i : Nat) (f : Technician → Technician)
    (cid : Nat) : findCustomerById (setTech db i f) cid = findCustomerById db cid := rfl

/-! ### C6: language detection tie behavior -/

/-- C6 counterexample: on a message with exactly one Arabic character and one
Latin letter the counts tie, and `detect_language` returns English — the claim
says Arabic wins ties. -/
theorem C6_tie_counterexample :
    arabicCount "aم" = latinCount "aم" ∧ detectLanguage "aم" = "en" ∧
    detectLanguage "aم" ≠ "ar" := by
  decide

/-- C6 amended: language detection counts Arabic-script characters and Latin
letters; it returns Arabic exactly when the Arabic count is strictly greater,
and English otherwise — in particular ties go to English, not Arabic. -/
theorem C6_detect_language_amended (s : String) :
    (detectLanguage s = "ar" ↔ latinCount s < arabicCount s) ∧
    (detectLanguage s = "en" ↔ ¬ latinCount s < arabicCount s) := by
  by_cases h : latinCount s < arabicCount s <;> simp [detectLanguage, h]

/-! ### C7: invalid decision values are rejected by the public operation -/

/-- C7: the public decision endpoint refuses any decision value outside
`{approved, rejected}` with HTTP 400 and leaves the store untouched — in
particular it never routes the ticket to compensation. -/
theorem C7_invalid_decision_is_rejected (db : DB) (tid : Nat) (d : Option String)
    (reason : String) (techId : Option Nat) (now : Nat) (sf : Bool)
    (h1 : d ≠ some "approved") (h2 : d ≠ some "rejected") :
    makeDecision db tid d reason techId now sf = (400, db) := by
  unfold makeDecision
  rw [if_pos ⟨h1, h2⟩]

/-- C7 witness: the decision value `"maybe"` is refused on the sample store. -/
theorem C7_invalid_decision_witness :
    makeDecision sampleDb 1 (some "maybe") "" none 0 false = (400, sampleDb) :=
  C7_invalid_decision_is_rejected sampleDb 1 (some "maybe") "" none 0 false
    (by decide) (by decide)

/-! ### C10: first-contact handling is not deterministic -/

/-- C10: creating a customer for an unseen phone takes the account flag from a
random draw, so the same first contact can yield customers whose approved
tickets route to refund/PENDING_FINANCE in one run and to
replacement/PENDING_INVENTORY in the other. -/
theorem C10_first_contact_not_deterministic :
    (getOrCreateCustomer emptyDb "+20100000002" none true).1.has_kapci_account = true ∧
    (getOrCreateCustomer emptyDb "+20100000002" none false).1.has_kapci_account = false ∧
    firstContactOutcome true = ("pending_finance", some "refund") ∧
    firstContactOutcome false = ("pending_inventory", some "replacement") ∧
    firstContactOutcome true ≠ firstContactOutcome false := by
  decide

/-! ### C3: routing approved tickets by the owner's account flag -/

/-- C3: recording an approved technical decision routes by the owning
customer's account flag: account holders get `refund`/`PENDING_FINANCE`,
everyone else `replacement`/`PENDING_INVENTORY`. -/
theorem C3_routing_reads_account_flag (db : DB) (tid : Nat) (t : Ticket)
    (c : Customer) (notes : Option String) (techId : Option Nat) (now : Nat)
    (h1 : findTicket db tid = some t)
    (h2 : findCustomerById db t.customer_id = some c) :
    ((recordTechnicalDecision db tid "approved" notes techId now).1.map Ticket.status =
      some (if c.has_kapci_account then "pending_finance" else "pending_inventory")) ∧
    ((recordTechnicalDecision db tid "approved" notes techId now).1.map
        Ticket.compensation_type =
      some (if c.has_kapci_account then some "refund" else some "replacement")) := by
  have hf1 : ∀ x : Ticket,
      ((fun y : Ticket => { y with technical_decision := "approved", technical_notes := notes,
                                   technical_review_date := some now }) x).id = x.id :=
    fun _ => rfl
  have key : ∀ db2 : DB,
      findTicket db2 tid = some { t with technical_decision := "approved",
                                         technical_notes := notes,
                                         technical_review_date := some now } →
      findCustomerById db2 t.customer_id = some c →
      ((findTicket (routeToCompensation db2 tid) tid).map Ticket.status =
        some (if c.has_kapci_account then "pending_finance" else "pending_inventory")) ∧
      ((findTicket (routeToCompensation db2 tid) tid).map Ticket.compensation_type =
        some (if c.has_kapci_account then some "refund" else some "replacement")) := by
    intro db2 hf hc
    unfold routeToCompensation
    rw [hf]
    simp only [hc]
    cases hacct : c.has_kapci_account with
    | true =>
      rw [if_pos rfl, findTicket_log,
        findTicket_setTicket db2 tid
          (fun y => { y with compensation_type := some "refund",
                             status := "pending_finance" })
          (fun _ => rfl), hf]
      exact ⟨rfl, rfl⟩
    | false =>
      rw [if_neg (by decide), findTicket_log,
        findTicket_setTicket db2 tid
          (fun y => { y with compensation_type := some "replacement",
                             status := "pending_inventory" })
          (fun _ => rfl), hf]
      exact ⟨rfl, rfl⟩
  unfold recordTechnicalDecision
  rw [h1]
  simp only [show (("approved" == "rejected") = false) from rfl, Bool.false_eq_true,
    if_false]
  have hstep : findTicket (setTicket db tid
      (fun y => { y with technical_decision := "approved", technical_notes := notes,
                         technical_review_date := some now })) tid =
      some { t with technical_decision := "approved", technical_notes := notes,
                    technical_review_date := some now } := by
    rw [findTicket_setTicket db tid
      (fun y => { y with technical_decision := "approved", technical_notes := notes,
                         technical_review_date := some now }) hf1, h1]
    rfl
  cases hat : assignedTechOf (setTicket db tid
      (fun y => { y with technical_decision := "approved", technical_notes := notes,
                         technical_review_date := some now })) t with
  | none => exact key _ (by exact hstep) (by exact h2)
  | some te => exact key _ (by exact hstep) (by exact h2)

/-- C3 witness: on the sample store (account holder) the approved decision
lands in `PENDING_FINANCE` with a refund. -/
theorem C3_routing_witness :
    ((recordTechnicalDecision sampleDb 1 "approved" none none 5).1.map Ticket.status =
      some (if sampleCustomer.has_kapci_account then "pending_finance"
            else "pending_inventory")) ∧
    ((recordTechnicalDecision sampleDb 1 "approved" none none 5).1.map
        Ticket.compensation_type =
      some (if sampleCustomer.has_kapci_account then some "refund"
            else some "replacement")) :=
  C3_routing_reads_account_flag sampleDb 1 sampleTicket sampleCustomer none none 5
    (by decide) (by decide)

/-! ### C1: reachability of the cancel intent across conversation steps -/

/-- C1 counterexample: at step `IDLE` a message classified as `cancel` does
not produce the cancelled response — the IDLE branch's fallthrough answers
with the greeting and performs no reset. -/
theorem C1_cancel_at_idle_counterexample :
    classifyIntent "cancel" "idle" = "cancel" ∧
    routeMessage sampleDb sampleCustomer idleState "cancel" "cancel" noEntities "text"
        none 3 2025 ['0', '0', '0', '0', '2'] =
      (sampleDb, idleState, Response.greeting "ar") ∧
    Response.greeting "ar" ≠ Response.cancelled "ar" := by
  decide

/-- C1 amended: the cancel intent causes a full reset with the cancelled
response only at steps without a specific branch (the unwired steps GREETING,
COLLECTING_NAME, COLLECTING_PURCHASE_DATE, COLLECTING_QUANTITY,
AWAITING_RESPONSE).  The step-specific branches shadow it everywhere else: at
IDLE a cancel-classified message gets the greeting and no reset, and at the
collecting/confirming steps the step-aware classifier can never emit `cancel`
in the first place. -/
theorem C1_cancel_amended (db : DB) (customer : Customer) (st st2 : ConversationState)
    (message : String) (entities : Entities) (mtype : String) (media : Option String)
    (now year : Nat) (digits : List Char)
    (hstep : st.current_step = "greeting" ∨ st.current_step = "collecting_name" ∨
             st.current_step = "collecting_purchase_date" ∨
             st.current_step = "collecting_quantity" ∨
             st.current_step = "awaiting_response")
    (hidle : st2.current_step = "idle") :
    routeMessage db customer st "cancel" message entities mtype media now year digits =
      (db, resetState st now, Response.cancelled customer.preferred_language) ∧
    (resetState st now).current_step = "idle" ∧
    (resetState st now).collected = emptyCollected ∧
    classifyIntent message "collecting_product" ≠ "cancel" ∧
    classifyIntent message "collecting_issue" ≠ "cancel" ∧
    classifyIntent message "collecting_photos" ≠ "cancel" ∧
    classifyIntent message "confirming_data" ≠ "cancel" ∧
    routeMessage db customer st2 "cancel" message entities mtype media now year digits =
      (db, st2, Response.greeting customer.preferred_language) := by
  refine ⟨?_, rfl, rfl, ?_, ?_, ?_, ?_, ?_⟩
  · rcases hstep with h | h | h | h | h <;> simp [routeMessage, h]
  · simp [classifyIntent]
  · simp [classifyIntent]
  · cases h : anyKeyword (intentKeywords "skip") (lowerTrim message) <;>
      simp [classifyIntent, h]
  · cases h1 : anyKeyword (intentKeywords "confirm_yes") (lowerTrim message) <;>
      cases h2 : anyKeyword (intentKeywords "confirm_no") (lowerTrim message) <;>
      simp [classifyIntent, h1, h2]
  · simp [routeMessage, hidle]

/-- C1 amended witness: at the unwired step GREETING a cancel message does
reset and answer with the cancelled response, while the classifier cannot emit
`cancel` at the collecting/confirming steps, and at IDLE it answers with the
greeting. -/
theorem C1_cancel_amended_witness :
    routeMessage sampleDb sampleCustomer greetState "cancel" "cancel" noEntities "text"
        none 3 2025 ['0', '0', '0', '0', '2'] =
      (sampleDb, resetState greetState 3,
       Response.cancelled sampleCustomer.preferred_language) ∧
    (resetState greetState 3).current_step = "idle" ∧
    (resetState greetState 3).collected = emptyCollected ∧
    classifyIntent "cancel" "collecting_product" ≠ "cancel" ∧
    classifyIntent "cancel" "collecting_issue" ≠ "cancel" ∧
    classifyIntent "cancel" "collecting_photos" ≠ "cancel" ∧
    classifyIntent "cancel" "confirming_data" ≠ "cancel" ∧
    routeMessage sampleDb sampleCustomer idleState "cancel" "cancel" noEntities "text"
        none 3 2025 ['0', '0', '0', '0', '2'] =
      (sampleDb, idleState, Response.greeting sampleCustomer.preferred_language) :=
  C1_cancel_amended sampleDb sampleCustomer greetState idleState "cancel" noEntities
    "text" none 3 2025 ['0', '0', '0', '0', '2'] (by decide) (by decide)

/-! ### C9: decision commits regardless of notification delivery -/

/-- Shape of a successful `record_technical_decision`: the returned row exists,
keeps its owner, carries the recorded decision, and the operation touches
neither conversations nor customers. -/
theorem record_shape (db : DB) (tid : Nat) (d : String) (notes : Option String)
    (techId : Option Nat) (now : Nat) (t : Ticket)
    (h1 : findTicket db tid = some t) :
    ∃ t', (recordTechnicalDecision db tid d notes techId now).1 = some t' ∧
      t'.customer_id = t.customer_id ∧
      t'.technical_decision = d ∧
      (recordTechnicalDecision db tid d notes techId now).2.conversations =
        db.conversations ∧
      (recordTechnicalDecision db tid d notes techId now).2.customers = db.customers := by
  have keyR : ∀ db2 : DB,
      findTicket db2 tid = some { t with technical_decision := d,
                                         technical_notes := notes,
                                         technical_review_date := some now } →
      ∃ t', findTicket (routeToCompensation db2 tid) tid = some t' ∧
        t'.customer_id = t.customer_id ∧ t'.technical_decision = d ∧
        (routeToCompensation db2 tid).conversations = db2.conversations ∧
        (routeToCompensation db2 tid).customers = db2.customers := by
    intro db2 hf
    unfold routeToCompensation
    simp only [hf]
    cases hacct : (match findCustomerById db2
        ({ t with technical_decision := d, technical_notes := notes,
                  technical_review_date := some now } : Ticket).customer_id with
      | some c => c.has_kapci_account
      | none => false) with
    | true =>
      rw [if_pos rfl]
      refine ⟨{ t with technical_decision := d, technical_notes := notes,
                       technical_review_date := some now,
                       compensation_type := some "refund",
                       status := "pending_finance" }, ?_, rfl, rfl, rfl, rfl⟩
      rw [findTicket_log,
        findTicket_setTicket db2 tid
          (fun y => { y with compensation_type := some "refund",
                             status := "pending_finance" }) (fun _ => rfl), hf]
      rfl
    | false =>
      rw [if_neg (by decide)]
      refine ⟨{ t with technical_decision := d, technical_notes := notes,
                       technical_review_date := some now,
                       compensation_type := some "replacement",
                       status := "pending_inventory" }, ?_, rfl, rfl, rfl, rfl⟩
      rw [findTicket_log,
        findTicket_setTicket db2 tid
          (fun y => { y with compensation_type := some "replacement",
                             status := "pending_inventory" }) (fun _ => rfl), hf]
      rfl
  have hstep : findTicket (setTicket db tid
      (fun y => { y with technical_decision := d, technical_notes := notes,
                         technical_review_date := some now })) tid =
      some { t with technical_decision := d, technical_notes := notes,
                    technical_review_date := some now } := by
    rw [findTicket_setTicket db tid
      (fun y => { y with technical_decision := d, technical_notes := notes,
                         technical_review_date := some now }) (fun _ => rfl), h1]
    rfl
  unfold recordTechnicalDecision
  simp only [h1]
  cases hat : assignedTechOf (setTicket db tid
      (fun y => { y with technical_decision := d, technical_notes := notes,
                         technical_review_date := some now })) t with
  | none =>
    by_cases hd : (d == "rejected") = true
    · rw [if_pos hd]
      refine ⟨{ t with technical_decision := d, technical_notes := notes,
                       technical_review_date := some now,
                       status := "rejected" }, ?_, rfl, rfl, rfl, rfl⟩
      rw [findTicket_log,
        findTicket_setTicket _ tid (fun y => { y with status := "rejected" })
          (fun _ => rfl), hstep]
      rfl
    · rw [if_neg hd]
      exact keyR _ (by exact hstep)
  | some te =>
    by_cases hd : (d == "rejected") = true
    · rw [if_pos hd]
      refine ⟨{ t with technical_decision := d, technical_notes := notes,
                       technical_review_date := some now,
                       status := "rejected" }, ?_, rfl, rfl, rfl, rfl⟩
      rw [findTicket_log,
        findTicket_setTicket _ tid (fun y => { y with status := "rejected" })
          (fun _ => rfl)]
      rw [show findTicket (setTech (setTicket db tid
          (fun y => { y with technical_decision := d, technical_notes := notes,
                             technical_review_date := some now })) te.id
          (fun x => { x with current_workload := max 0 (x.current_workload - 1) })) tid =
        some { t with technical_decision := d, technical_notes := notes,
                      technical_review_date := some now } from hstep]
      rfl
    · rw [if_neg hd]
      exact keyR _ (by exact hstep)

/-- C9: when the ticket and its owner exist, handling a technical decision
succeeds, commits the decision, and appends the notification to the owner's
conversation history, all independently of whether the outbound WhatsApp send
fails — the send failure is swallowed and rolls nothing back. -/
theorem C9_send_failure_swallowed (db : DB) (tid : Nat) (d : String)
    (notes : Option String) (techId : Option Nat) (now : Nat) (t : Ticket)
    (c : Customer) (sf sf' : Bool)
    (h1 : findTicket db tid = some t)
    (h2 : findCustomerById db t.customer_id = some c) :
    (handleTechnicalDecision db tid d notes techId now sf).ok = true ∧
    (handleTechnicalDecision db tid d notes techId now sf).db =
      (handleTechnicalDecision db tid d notes techId now sf').db ∧
    (handleTechnicalDecision db tid d notes techId now sf).notification =
      (handleTechnicalDecision db tid d notes techId now sf').notification ∧
    (recordTechnicalDecision db tid d notes techId now).1.map
        Ticket.technical_decision = some d ∧
    (handleTechnicalDecision db tid d notes techId now sf).db.tickets =
      (recordTechnicalDecision db tid d notes techId now).2.tickets ∧
    (handleTechnicalDecision db tid d notes techId now sf).db.conversations =
      db.conversations ++
        [{ customer_id := c.id, direction := "outbound",
           content := (handleTechnicalDecision db tid d notes techId now sf).notification,
           message_type := "text" }] := by
  obtain ⟨t', ht', hcid, hdec, hconv, hcust⟩ := record_shape db tid d notes techId now t h1
  have hfc : findCustomerById (recordTechnicalDecision db tid d notes techId now).2
      t'.customer_id = some c := by
    unfold findCustomerById
    rw [show (recordTechnicalDecision db tid d notes techId now).2.customers =
      db.customers from hcust, hcid]
    exact h2
  refine ⟨?_, ?_, ?_, ?_, ?_, ?_⟩
  · simp only [handleTechnicalDecision, ht', hfc]
  · simp only [handleTechnicalDecision, ht', hfc]
  · simp only [handleTechnicalDecision, ht', hfc]
  · rw [ht']
    show some t'.technical_decision = some d
    rw [hdec]
  · simp only [handleTechnicalDecision, ht', hfc]
    rfl
  · simp only [handleTechnicalDecision, ht', hfc]
    rw [conversations_saveMessage, hconv]

/-- C9 witness: an approved decision on the sample store commits and logs the
notification whether or not the send raises. -/
theorem C9_send_failure_witness :
    (handleTechnicalDecision sampleDb 1 "approved" none none 5 true).ok = true ∧
    (handleTechnicalDecision sampleDb 1 "approved" none none 5 true).db =
      (handleTechnicalDecision sampleDb 1 "approved" none none 5 false).db ∧
    (handleTechnicalDecision sampleDb 1 "approved" none none 5 true).notification =
      (handleTechnicalDecision sampleDb 1 "approved" none none 5 false).notification ∧
    (recordTechnicalDecision sampleDb 1 "approved" none none 5).1.map
        Ticket.technical_decision = some "approved" ∧
    (handleTechnicalDecision sampleDb 1 "approved" none none 5 true).db.tickets =
      (recordTechnicalDecision sampleDb 1 "approved" none none 5).2.tickets ∧
    (handleTechnicalDecision sampleDb 1 "approved" none none 5 true).db.conversations =
      sampleDb.conversations ++
        [{ customer_id := sampleCustomer.id, direction := "outbound",
           content := (handleTechnicalDecision sampleDb 1 "approved" none none
               5 true).notification,
           message_type := "text" }] :=
  C9_send_failure_swallowed sampleDb 1 "approved" none none 5 sampleTicket
    sampleCustomer true false (by decide) (by decide)

/-! ### C2: audit rows of status-changing operations -/

/-- Appending one element to a list always makes `find?` succeed when the new
element satisfies the predicate. -/
theorem find?_append_singleton {α : Type} (l : List α) (p : α → Bool) (a : α)
    (ha : p a = true) : ∃ x, (l ++ [a]).find? p = some x := by
  induction l with
  | nil => exact ⟨a, by simp [List.find?, ha]⟩
  | cons b l ih =>
    by_cases hb : p b = true
    · exact ⟨b, by simp [List.find?, hb]⟩
    · obtain ⟨x, hx⟩ := ih
      exact ⟨x, by simp [List.find?, hb] at hx ⊢; exact hx⟩

/-- C2 counterexample: on a ticket whose status is `under_review`, the
rejection path appends a history row with `old_status = "rejected"` (the
already-mutated status), and the approval path appends a row with
`old_status = "approved"` (hard-coded) — neither records the actual
pre-operation status `under_review`. -/
theorem C2_history_old_status_counterexample :
    (findTicket sampleDb 1).map Ticket.status = some "under_review" ∧
    ((recordTechnicalDecision sampleDb 1 "rejected" none none 5).2.history.map
        HistRow.old_status = [some "rejected"]) ∧
    ((recordTechnicalDecision sampleDb 1 "approved" none none 5).2.history.map
        HistRow.old_status = [some "approved"]) ∧
    (some "rejected" : Option String) ≠ some "under_review" ∧
    (some "approved" : Option String) ≠ some "under_review" := by
  decide

/-- C2 amended: every status-changing operation appends exactly one audit row
whose `new_status` matches the status it sets, and `update_status` and
`complete` record the true prior status; but the rejection path records
`old_status = new_status = REJECTED` (it logs the already-updated status),
while compensation routing, finance approval and inventory preparation record
hard-coded old statuses (`approved`, `pending_finance`, `pending_inventory`
respectively) regardless of the ticket's actual prior status.  Creation (whose
commit succeeds when the generated number is not already taken) appends its
status row (old = null) plus, when auto-assignment finds a technician, one
assignment row with both statuses null. -/
theorem C2_audit_rows_amended (db : DB) (tid : Nat) (t : Ticket) (c : Customer)
    (s cb : String) (r notes : Option String) (techId : Option Nat)
    (sOrd trk : Option String) (cid : Nat) (data : TicketData)
    (year now : Nat) (digits : List Char)
    (h1 : findTicket db tid = some t)
    (h2 : findCustomerById db t.customer_id = some c)
    (h3 : t.assigned_technician_id = none)
    (h4 : ∀ tk ∈ db.tickets, tk.ticket_number ≠ generateTicketNumber year digits) :
    (updateStatus db tid s cb r now).history =
      db.history ++ [{ ticket_id := tid, old_status := some t.status,
                       new_status := some s, changed_by := cb, reason := r }] ∧
    (recordTechnicalDecision db tid "rejected" notes techId now).2.history =
      db.history ++ [{ ticket_id := tid, old_status := some "rejected",
                       new_status := some "rejected", changed_by := "Technical Team",
                       reason := some ("Rejected: " ++ pyStr notes) }] ∧
    (recordTechnicalDecision db tid "approved" notes techId now).2.history =
      db.history ++ [{ ticket_id := tid, old_status := some "approved",
                       new_status := some (if c.has_kapci_account then "pending_finance"
                                           else "pending_inventory"),
                       changed_by := "System",
                       reason := some (if c.has_kapci_account
                                       then "Routed to Finance for refund"
                                       else "Routed to Inventory for replacement") }] ∧
    (processFinanceApproval db tid sOrd).history =
      db.history ++ [{ ticket_id := tid, old_status := some "pending_finance",
                       new_status := some "finance_approved", changed_by := "Finance Team",
                       reason := some ("Sales order created: " ++ pyStr sOrd) }] ∧
    (processInventoryPreparation db tid trk).history =
      db.history ++ [{ ticket_id := tid, old_status := some "pending_inventory",
                       new_status := some "inventory_prepared",
                       changed_by := "Inventory Team",
                       reason := some ("Replacement prepared. Tracking: " ++ pyStr trk) }] ∧
    (completeTicket db tid cb now).history =
      db.history ++ [{ ticket_id := tid, old_status := some t.status,
                       new_status := some "completed", changed_by := cb,
                       reason := some "Ticket completed" }] ∧
    (createTicket db cid data year digits now).2.history =
      db.history ++ [{ ticket_id := db.nextTicketId, old_status := none,
                       new_status := some "pending_review", changed_by := "System",
                       reason := some "Ticket created" }] ++
        (match autoSelect db.technicians with
         | none => []
         | some te => [{ ticket_id := db.nextTicketId, old_status := none,
                         new_status := none, changed_by := "System",
                         reason := some ("Assigned to technician: " ++ te.name) }]) := by
  have hstep : ∀ dd : String, ∀ nn : Option String, findTicket (setTicket db tid
      (fun y => { y with technical_decision := dd, technical_notes := nn,
                         technical_review_date := some now })) tid =
      some { t with technical_decision := dd, technical_notes := nn,
                    technical_review_date := some now } := by
    intro dd nn
    rw [findTicket_setTicket db tid
      (fun y => { y with technical_decision := dd, technical_notes := nn,
                         technical_review_date := some now }) (fun _ => rfl), h1]
    rfl
  refine ⟨?_, ?_, ?_, ?_, ?_, ?_, ?_⟩
  · simp [updateStatus, h1, logStatusChange, setTicket]
  · unfold recordTechnicalDecision
    simp only [h1]
    simp only [assignedTechOf, h3]
    rw [if_pos (show (("rejected" == "rejected") = true) from rfl)]
    simp [logStatusChange, setTicket]
  · unfold recordTechnicalDecision
    simp only [h1]
    simp only [assignedTechOf, h3]
    rw [if_neg (show ¬ (("approved" == "rejected") = true) from by decide)]
    show (routeToCompensation _ tid).history = _
    unfold routeToCompensation
    simp only [hstep "approved" notes]
    have hc2 : findCustomerById (setTicket db tid
        (fun y => { y with technical_decision := "approved", technical_notes := notes,
                           technical_review_date := some now }))
        ({ t with technical_decision := "approved", technical_notes := notes,
                  technical_review_date := some now } : Ticket).customer_id = some c := by
      exact h2
    simp only [hc2]
    cases hacct : c.has_kapci_account with
    | true => rw [if_pos rfl]; simp [logStatusChange, setTicket]
    | false => rw [if_neg (by decide)]; simp [logStatusChange, setTicket]
  · simp [processFinanceApproval, h1, logStatusChange, setTicket]
  · simp [processInventoryPreparation, h1, logStatusChange, setTicket]
  · simp [completeTicket, h1, logStatusChange, setTicket]
  · have hcond : ¬ ((db.tickets.any (fun tk => tk.ticket_number ==
        (newTicketRow db cid data year digits now).ticket_number)) = true) := by
      intro hc
      obtain ⟨t2, ht2, hp⟩ := List.any_eq_true.mp hc
      exact h4 t2 ht2 (by simpa using hp)
    unfold createTicket
    simp only []
    rw [if_neg hcond]
    unfold assignTechnician
    simp only [newTicketRow_id]
    obtain ⟨x, hx⟩ := find?_append_singleton db.tickets
      (fun tk : Ticket => tk.id == db.nextTicketId)
      (newTicketRow db cid data year digits now) (by simp [newTicketRow])
    rw [show findTicket (logStatusChange
        { db with tickets := db.tickets ++ [newTicketRow db cid data year digits now], nextTicketId := db.nextTicketId + 1 }
        db.nextTicketId none (some "pending_review") "System" (some "Ticket created"))
        db.nextTicketId = (db.tickets ++ [newTicketRow db cid data year digits now]).find?
          (fun tk : Ticket => tk.id == db.nextTicketId) from rfl]
    rw [hx]
    cases hsel : autoSelect db.technicians with
    | none =>
      rw [show autoSelect (logStatusChange
          { db with tickets := db.tickets ++ [newTicketRow db cid data year digits now], nextTicketId := db.nextTicketId + 1 }
          db.nextTicketId none (some "pending_review") "System"
          (some "Ticket created")).technicians = autoSelect db.technicians from rfl, hsel]
      simp [logStatusChange]
    | some te =>
      rw [show autoSelect (logStatusChange
          { db with tickets := db.tickets ++ [newTicketRow db cid data year digits now], nextTicketId := db.nextTicketId + 1 }
          db.nextTicketId none (some "pending_review") "System"
          (some "Ticket created")).technicians = autoSelect db.technicians from rfl, hsel]
      simp [logStatusChange, setTicket, setTech]

/-- C2 amended witness: the audit rows produced on the sample store. -/
theorem C2_audit_rows_witness :
    (updateStatus sampleDb 1 "under_review" "Admin" none 5).history =
      sampleDb.history ++ [{ ticket_id := 1, old_status := some sampleTicket.status,
                             new_status := some "under_review", changed_by := "Admin",
                             reason := none }] ∧
    (recordTechnicalDecision sampleDb 1 "rejected" none none 5).2.history =
      sampleDb.history ++ [{ ticket_id := 1, old_status := some "rejected",
                             new_status := some "rejected",
                             changed_by := "Technical Team",
                             reason := some ("Rejected: " ++ pyStr none) }] ∧
    (recordTechnicalDecision sampleDb 1 "approved" none none 5).2.history =
      sampleDb.history ++
        [{ ticket_id := 1, old_status := some "approved",
           new_status := some (if sampleCustomer.has_kapci_account then "pending_finance"
                               else "pending_inventory"),
           changed_by := "System",
           reason := some (if sampleCustomer.has_kapci_account
                           then "Routed to Finance for refund"
                           else "Routed to Inventory for replacement") }] ∧
    (processFinanceApproval sampleDb 1 (some "SO1")).history =
      sampleDb.history ++
        [{ ticket_id := 1, old_status := some "pending_finance",
           new_status := some "finance_approved", changed_by := "Finance Team",
           reason := some ("Sales order created: " ++ pyStr (some "SO1")) }] ∧
    (processInventoryPreparation sampleDb 1 (some "TRK1")).history =
      sampleDb.history ++
        [{ ticket_id := 1, old_status := some "pending_inventory",
           new_status := some "inventory_prepared", changed_by := "Inventory Team",
           reason := some ("Replacement prepared. Tracking: " ++ pyStr (some "TRK1")) }] ∧
    (completeTicket sampleDb 1 "Admin" 5).history =
      sampleDb.history ++ [{ ticket_id := 1, old_status := some sampleTicket.status,
                             new_status := some "completed", changed_by := "Admin",
                             reason := some "Ticket completed" }] ∧
    (createTicket sampleDb 1 {} 2025 ['0', '0', '0', '0', '3'] 5).2.history =
      sampleDb.history ++ [{ ticket_id := sampleDb.nextTicketId, old_status := none,
                             new_status := some "pending_review", changed_by := "System",
                             reason := some "Ticket created" }] ++
        (match autoSelect sampleDb.technicians with
         | none => []
         | some te => [{ ticket_id := sampleDb.nextTicketId, old_status := none,
                         new_status := none, changed_by := "System",
                         reason := some ("Assigned to technician: " ++ te.name) }]) :=
  C2_audit_rows_amended sampleDb 1 sampleTicket sampleCustomer "under_review" "Admin"
    none none none (some "SO1") (some "TRK1") 1 {} 2025 5 ['0', '0', '0', '0', '3']
    (by decide) (by decide) (by decide) (by decide)

/-! ### C4: `completed_at` versus status `COMPLETED` -/

/-- A field-preserving in-place update keeps the completed-status invariant. -/
theorem inv_keep_map (tid : Nat) (g : Ticket → Ticket)
    (hg : ∀ tk, (g tk).status = tk.status ∧ (g tk).completed_at = tk.completed_at)
    (l : List Ticket)
    (h : ∀ tk ∈ l, tk.status = "completed" → tk.completed_at ≠ none) :
    ∀ tk' ∈ (l.map (fun tk => if tk.id == tid then g tk else tk)),
      tk'.status = "completed" → tk'.completed_at ≠ none := by
  intro tk' hmem
  rw [List.mem_map] at hmem
  obtain ⟨tk, htk, rfl⟩ := hmem
  by_cases hid : (tk.id == tid) = true
  · rw [if_pos hid, (hg tk).2]
    intro hst
    exact h tk htk ((hg tk).1 ▸ hst)
  · rw [if_neg hid]
    exact h tk htk

/-- An in-place update that forces a non-COMPLETED status keeps the
completed-status invariant. -/
theorem inv_status_map (tid : Nat) (sts : String) (hs : sts ≠ "completed")
    (g : Ticket → Ticket) (hg : ∀ tk, (g tk).status = sts) (l : List Ticket)
    (h : ∀ tk ∈ l, tk.status = "completed" → tk.completed_at ≠ none) :
    ∀ tk' ∈ (l.map (fun tk => if tk.id == tid then g tk else tk)),
      tk'.status = "completed" → tk'.completed_at ≠ none := by
  intro tk' hmem
  rw [List.mem_map] at hmem
  obtain ⟨tk, htk, rfl⟩ := hmem
  by_cases hid : (tk.id == tid) = true
  · rw [if_pos hid, hg tk]
    intro hst
    exact absurd hst hs
  · rw [if_neg hid]
    exact h tk htk

/-- The `update_status` row updater keeps the completed-status invariant: when
it sets COMPLETED it also stamps `completed_at`. -/
theorem inv_upd_map (tid : Nat) (s : String) (now : Nat) (l : List Ticket)
    (h : ∀ tk ∈ l, tk.status = "completed" → tk.completed_at ≠ none) :
    ∀ tk' ∈ (l.map (fun tk => if tk.id == tid then
        { tk with status := s,
                  completed_at := if s == "completed" then some now
                                  else tk.completed_at }
      else tk)), tk'.status = "completed" → tk'.completed_at ≠ none := by
  intro tk' hmem
  rw [List.mem_map] at hmem
  obtain ⟨tk, htk, rfl⟩ := hmem
  by_cases hid : (tk.id == tid) = true
  · rw [if_pos hid]
    show s = "completed" →
      (if (s == "completed") = true then some now else tk.completed_at) ≠ none
    intro hst
    rw [if_pos (beq_iff_eq.mpr hst)]
    simp
  · rw [if_neg hid]
    exact h tk htk

/-- An in-place update that stamps `completed_at` keeps the completed-status
invariant outright. -/
theorem inv_setnow_map (tid : Nat) (s : String) (now : Nat) (l : List Ticket)
    (h : ∀ tk ∈ l, tk.status = "completed" → tk.completed_at ≠ none) :
    ∀ tk' ∈ (l.map (fun tk => if tk.id == tid then
        { tk with status := s, completed_at := some now }
      else tk)), tk'.status = "completed" → tk'.completed_at ≠ none := by
  intro tk' hmem
  rw [List.mem_map] at hmem
  obtain ⟨tk, htk, rfl⟩ := hmem
  by_cases hid : (tk.id == tid) = true
  · rw [if_pos hid]
    intro _
    simp
  · rw [if_neg hid]
    exact h tk htk

/-- The `complete_ticket` row updater keeps the completed-status invariant. -/
theorem inv_complete_map (tid : Nat) (now : Nat) (l : List Ticket)
    (h : ∀ tk ∈ l, tk.status = "completed" → tk.completed_at ≠ none) :
    ∀ tk' ∈ (l.map (fun tk => if tk.id == tid then
        { tk with status := "completed", completed_at := some now }
      else tk)), tk'.status = "completed" → tk'.completed_at ≠ none := by
  intro tk' hmem
  rw [List.mem_map] at hmem
  obtain ⟨tk, htk, rfl⟩ := hmem
  by_cases hid : (tk.id == tid) = true
  · rw [if_pos hid]
    intro _
    simp
  · rw [if_neg hid]
    exact h tk htk

/-- Auto-assignment keeps the completed-status invariant (it only touches
`assigned_technician_id`). -/
theorem inv_assign (db2 : DB)
    (h2 : ∀ tk ∈ db2.tickets, tk.status = "completed" → tk.completed_at ≠ none)
    (tid : Nat) (techId : Option Nat) :
    ∀ tk' ∈ (assignTechnician db2 tid techId).tickets,
      tk'.status = "completed" → tk'.completed_at ≠ none := by
  intro tk' hmem
  unfold assignTechnician at hmem
  repeat' (first
    | split at hmem
    | simp only [tickets_log, tickets_setTech, setTicket] at hmem)
  all_goals
    first
      | exact h2 tk' hmem
      | (refine inv_keep_map tid _ ?_ db2.tickets h2 tk' hmem
         exact fun tk => ⟨rfl, rfl⟩)

/-- Compensation routing keeps the completed-status invariant (it only sets
non-COMPLETED statuses). -/
theorem inv_route (db2 : DB)
    (h2 : ∀ tk ∈ db2.tickets, tk.status = "completed" → tk.completed_at ≠ none)
    (tid : Nat) :
    ∀ tk' ∈ (routeToCompensation db2 tid).tickets,
      tk'.status = "completed" → tk'.completed_at ≠ none := by
  intro tk' hmem
  unfold routeToCompensation at hmem
  repeat' (first
    | split at hmem
    | simp only [tickets_log, setTicket] at hmem)
  all_goals
    first
      | exact h2 tk' hmem
      | exact inv_status_map tid "pending_finance" (by decide)
          (fun y => { y with compensation_type := some "refund",
                             status := "pending_finance" })
          (fun tk => rfl) db2.tickets h2 tk' hmem
      | exact inv_status_map tid "pending_inventory" (by decide)
          (fun y => { y with compensation_type := some "replacement",
                             status := "pending_inventory" })
          (fun tk => rfl) db2.tickets h2 tk' hmem

/-- One ticket-service operation preserves the invariant "status COMPLETED
implies `completed_at` set" across the whole store. -/
theorem applyOp_completed_inv (db : DB) (op : Op)
    (h : ∀ tk ∈ db.tickets, tk.status = "completed" → tk.completed_at ≠ none) :
    ∀ tk' ∈ (applyOp db op).tickets,
      tk'.status = "completed" → tk'.completed_at ≠ none := by
  cases op with
  | create cid data year digits now =>
    show ∀ tk' ∈ (createTicket db cid data year digits now).2.tickets, _
    unfold createTicket
    simp only []
    split
    · exact h
    · intro tk' hmem
      refine inv_assign _ ?_ _ _ tk' hmem
      intro tk htk
      rw [tickets_log] at htk
      rcases List.mem_append.mp htk with hold | hnew
      · exact h tk hold
      · intro hst
        rw [List.mem_singleton.mp hnew] at hst
        simp [newTicketRow] at hst
  | updStatus tid s cb r now =>
    show ∀ tk' ∈ (updateStatus db tid s cb r now).tickets, _
    intro tk' hmem
    unfold updateStatus at hmem
    repeat' (first
      | split at hmem
      | simp only [tickets_log, setTicket] at hmem)
    all_goals
      first
        | exact h tk' hmem
        | exact inv_upd_map tid s now db.tickets h tk' hmem
        | exact inv_setnow_map tid s now db.tickets h tk' hmem
        | exact inv_status_map tid s
            (fun hseq => ‹¬(s == "completed") = true› (beq_iff_eq.mpr hseq))
            (fun y => { y with status := s }) (fun tk => rfl) db.tickets h tk' hmem
  | assign tid techId =>
    exact inv_assign db h tid techId
  | record tid d notes techId now =>
    show ∀ tk' ∈ (recordTechnicalDecision db tid d notes techId now).2.tickets, _
    intro tk' hmem
    have hmid : ∀ tk2 ∈ (db.tickets.map (fun tk =>
        if tk.id == tid then
          { tk with technical_decision := d, technical_notes := notes,
                    technical_review_date := some now }
        else tk)),
        tk2.status = "completed" → tk2.completed_at ≠ none := by
      refine inv_keep_map tid _ ?_ db.tickets h
      exact fun tk => ⟨rfl, rfl⟩
    unfold recordTechnicalDecision at hmem
    repeat' (first
      | split at hmem
      | simp only [tickets_log, tickets_setTech, setTicket, Prod.snd] at hmem)
    all_goals
      first
        | exact h tk' hmem
        | exact inv_status_map tid "rejected" (by decide)
            (fun y => { y with status := "rejected" })
            (fun tk => rfl) _ hmid tk' hmem
        | exact inv_route _ (fun tk2 hm2 => hmid tk2 hm2) tid tk' hmem
        | exact inv_route _ (fun tk2 hm2 => hmid tk2 (by
            rw [tickets_setTech] at hm2
            simpa [setTicket] using hm2)) tid tk' hmem
  | route tid =>
    exact inv_route db h tid
  | finance tid so =>
    show ∀ tk' ∈ (processFinanceApproval db tid so).tickets, _
    intro tk' hmem
    unfold processFinanceApproval at hmem
    repeat' (first
      | split at hmem
      | simp only [tickets_log, setTicket] at hmem)
    all_goals
      first
        | exact h tk' hmem
        | exact inv_status_map tid "finance_approved" (by decide)
            (fun y => { y with sales_order_number := so,
                               status := "finance_approved" })
            (fun tk => rfl) db.tickets h tk' hmem
  | inventory tid tr =>
    show ∀ tk' ∈ (processInventoryPreparation db tid tr).tickets, _
    intro tk' hmem
    unfold processInventoryPreparation at hmem
    repeat' (first
      | split at hmem
      | simp only [tickets_log, setTicket] at hmem)
    all_goals
      first
        | exact h tk' hmem
        | exact inv_status_map tid "inventory_prepared" (by decide)
            (fun y => { y with replacement_tracking := tr,
                               status := "inventory_prepared" })
            (fun tk => rfl) db.tickets h tk' hmem
  | complete tid cb now =>
    show ∀ tk' ∈ (completeTicket db tid cb now).tickets, _
    intro tk' hmem
    unfold completeTicket at hmem
    repeat' (first
      | split at hmem
      | simp only [tickets_log, setTicket] at hmem)
    all_goals
      first
        | exact h tk' hmem
        | exact inv_complete_map tid now db.tickets h tk' hmem

/-- An in-place update whose updater never erases `completed_at` cannot lower
the number of tickets with `completed_at` set. -/
theorem countP_keep_le (i : Nat) (g : Ticket → Ticket)
    (hg : ∀ tk, tk.completed_at.isSome = true → (g tk).completed_at.isSome = true)
    (l : List Ticket) :
    l.countP (fun tk => tk.completed_at.isSome) ≤
      (l.map (fun tk => if tk.id == i then g tk else tk)).countP
        (fun tk => tk.completed_at.isSome) := by
  rw [List.countP_map]
  refine List.countP_mono_left ?_
  intro tk _ hp
  show (if (tk.id == i) = true then g tk else tk).completed_at.isSome = true
  by_cases hid : (tk.id == i) = true
  · rw [if_pos hid]
    exact hg tk hp
  · rw [if_neg hid]
    exact hp

/-- Auto-assignment never lowers the number of tickets with `completed_at`
set. -/
theorem countP_assign_le (db2 : DB) (tid : Nat) (techId : Option Nat) :
    db2.tickets.countP (fun tk => tk.completed_at.isSome) ≤
      (assignTechnician db2 tid techId).tickets.countP
        (fun tk => tk.completed_at.isSome) := by
  simp only [assignTechnician, setTicket, setTech, logStatusChange]
  repeat' split
  all_goals
    first
      | exact le_refl _
      | (show db2.tickets.countP _ ≤ ((db2.tickets.map _).countP _)
         refine countP_keep_le tid _ ?_ db2.tickets
         exact fun tk hp => hp)

/-- Compensation routing never lowers the number of tickets with
`completed_at` set. -/
theorem countP_route_le (db2 : DB) (tid : Nat) :
    db2.tickets.countP (fun tk => tk.completed_at.isSome) ≤
      (routeToCompensation db2 tid).tickets.countP
        (fun tk => tk.completed_at.isSome) := by
  simp only [routeToCompensation, setTicket, setTech, logStatusChange]
  repeat' split
  all_goals
    first
      | exact le_refl _
      | (show db2.tickets.countP _ ≤ ((db2.tickets.map _).countP _)
         refine countP_keep_le tid _ ?_ db2.tickets
         exact fun tk hp => hp)

/-- Restatement of `countP_route_le` over an equal list, for unification. -/
theorem countP_route_le2 (db2 : DB) (tid : Nat) (l : List Ticket)
    (hl : l = db2.tickets) :
    l.countP (fun tk => tk.completed_at.isSome) ≤
      (routeToCompensation db2 tid).tickets.countP
        (fun tk => tk.completed_at.isSome) := by
  rw [hl]
  exact countP_route_le db2 tid

/-- No ticket-service operation lowers the number of tickets with
`completed_at` set: the timestamp, once set, is never cleared. -/
theorem applyOp_countP_le (db : DB) (op : Op) :
    db.tickets.countP (fun tk => tk.completed_at.isSome) ≤
      (applyOp db op).tickets.countP (fun tk => tk.completed_at.isSome) := by
  cases op with
  | create cid data year digits now =>
    show _ ≤ ((createTicket db cid data year digits now).2.tickets.countP _)
    unfold createTicket
    simp only []
    split
    · exact le_refl _
    · refine le_trans ?_ (countP_assign_le _ _ none)
      rw [tickets_log, List.countP_append]
      exact Nat.le_add_right _ _
  | updStatus tid s cb r now =>
    show _ ≤ ((updateStatus db tid s cb r now).tickets.countP _)
    simp only [updateStatus, setTicket, setTech, logStatusChange]
    repeat' split
    all_goals
      first
        | exact le_refl _
        | (show db.tickets.countP _ ≤ ((db.tickets.map _).countP _)
           refine countP_keep_le tid _ ?_ db.tickets
           intro tk hp
           show (if (s == "completed") = true then some now
                 else tk.completed_at).isSome = true
           by_cases hs : (s == "completed") = true
           · rw [if_pos hs]
             rfl
           · rw [if_neg hs]
             exact hp)
        | (show db.tickets.countP _ ≤ ((db.tickets.map _).countP _)
           refine countP_keep_le tid _ ?_ db.tickets
           exact fun tk hp => rfl)
        | (show db.tickets.countP _ ≤ ((db.tickets.map _).countP _)
           refine countP_keep_le tid _ ?_ db.tickets
           exact fun tk hp => hp)
  | assign tid techId =>
    exact countP_assign_le db tid techId
  | record tid d notes techId now =>
    show _ ≤ ((recordTechnicalDecision db tid d notes techId now).2.tickets.countP _)
    simp only [recordTechnicalDecision]
    repeat' split
    all_goals
      first
        | exact le_refl _
        | exact countP_route_le _ tid
        | exact le_trans
            (countP_keep_le tid
              (fun y => { y with technical_decision := d, technical_notes := notes,
                                 technical_review_date := some now })
              (fun tk hp => hp) db.tickets)
            (countP_keep_le tid (fun y => { y with status := "rejected" })
              (fun tk hp => hp)
              (List.map (fun tk => if tk.id == tid then
                  { tk with technical_decision := d, technical_notes := notes,
                            technical_review_date := some now }
                else tk) db.tickets))
        | exact le_trans
            (countP_keep_le tid
              (fun y => { y with technical_decision := d, technical_notes := notes,
                                 technical_review_date := some now })
              (fun tk hp => hp) db.tickets)
            (countP_route_le2 _ tid
              (List.map (fun tk => if tk.id == tid then
                  { tk with technical_decision := d, technical_notes := notes,
                            technical_review_date := some now }
                else tk) db.tickets) rfl)
  | route tid =>
    exact countP_route_le db tid
  | finance tid so =>
    show _ ≤ ((processFinanceApproval db tid so).tickets.countP _)
    simp only [processFinanceApproval, setTicket, setTech, logStatusChange]
    repeat' split
    all_goals
      first
        | exact le_refl _
        | (show db.tickets.countP _ ≤ ((db.tickets.map _).countP _)
           refine countP_keep_le tid _ ?_ db.tickets
           exact fun tk hp => hp)
  | inventory tid tr =>
    show _ ≤ ((processInventoryPreparation db tid tr).tickets.countP _)
    simp only [processInventoryPreparation, setTicket, setTech, logStatusChange]
    repeat' split
    all_goals
      first
        | exact le_refl _
        | (show db.tickets.countP _ ≤ ((db.tickets.map _).countP _)
           refine countP_keep_le tid _ ?_ db.tickets
           exact fun tk hp => hp)
  | complete tid cb now =>
    show _ ≤ ((completeTicket db tid cb now).tickets.countP _)
    simp only [completeTicket, setTicket, setTech, logStatusChange]
    repeat' split
    all_goals
      first
        | exact le_refl _
        | (show db.tickets.countP _ ≤ ((db.tickets.map _).countP _)
           refine countP_keep_le tid _ ?_ db.tickets
           exact fun tk hp => rfl)

/-- The completed-status invariant is preserved by any operation sequence. -/
theorem applyOps_completed_inv (ops : List Op) (db : DB)
    (h : ∀ tk ∈ db.tickets, tk.status = "completed" → tk.completed_at ≠ none) :
    ∀ tk' ∈ (applyOps db ops).tickets,
      tk'.status = "completed" → tk'.completed_at ≠ none := by
  induction ops generalizing db with
  | nil => exact h
  | cons op ops ih => exact ih (applyOp db op) (applyOp_completed_inv db op h)

/-- The count of tickets with `completed_at` set never decreases across any
operation sequence. -/
theorem applyOps_countP_le (ops : List Op) (db : DB) :
    db.tickets.countP (fun tk => tk.completed_at.isSome) ≤
      (applyOps db ops).tickets.countP (fun tk => tk.completed_at.isSome) := by
  induction ops generalizing db with
  | nil => exact le_refl _
  | cons op ops ih => exact le_trans (applyOp_countP_le db op) (ih (applyOp db op))

/-- C4 counterexample: completing a ticket and then moving its status away
from COMPLETED leaves `completed_at` set while the status is not COMPLETED —
the claimed "if and only if" fails. -/
theorem C4_completed_at_counterexample :
    ((findTicket (updateStatus (completeTicket sampleDb 1 "System" 7) 1
        "pending_review" "System" none 9) 1).map
      (fun tk => (tk.status, tk.completed_at))) = some ("pending_review", some 7) ∧
    ("pending_review" : String) ≠ "completed" := by
  decide

/-- C4 amended: across any sequence of ticket-service operations, a ticket in
status COMPLETED always has `completed_at` set, and `completed_at` is never
cleared (the count of stamped tickets never decreases); but the converse
direction of the claim fails: moving a completed ticket's status away from
COMPLETED leaves `completed_at` set. -/
theorem C4_completed_at_amended (db : DB) (ops : List Op) (tid : Nat) (t : Ticket)
    (s cb : String) (r : Option String) (now : Nat)
    (hinv : ∀ tk ∈ db.tickets, tk.status = "completed" → tk.completed_at ≠ none)
    (h1 : findTicket db tid = some t)
    (hs : s ≠ "completed") :
    (∀ tk' ∈ (applyOps db ops).tickets,
      tk'.status = "completed" → tk'.completed_at ≠ none) ∧
    db.tickets.countP (fun tk => tk.completed_at.isSome) ≤
      (applyOps db ops).tickets.countP (fun tk => tk.completed_at.isSome) ∧
    (findTicket (updateStatus db tid s cb r now) tid).map Ticket.status = some s ∧
    (findTicket (updateStatus db tid s cb r now) tid).map Ticket.completed_at =
      some t.completed_at := by
  refine ⟨applyOps_completed_inv ops db hinv, applyOps_countP_le ops db, ?_, ?_⟩
  · unfold updateStatus
    simp only [h1]
    rw [findTicket_log,
      findTicket_setTicket db tid
        (fun y => { y with status := s,
                           completed_at := if (s == "completed") = true then some now
                                           else y.completed_at }) (fun _ => rfl), h1]
    rfl
  · unfold updateStatus
    simp only [h1]
    rw [findTicket_log,
      findTicket_setTicket db tid
        (fun y => { y with status := s,
                           completed_at := if (s == "completed") = true then some now
                                           else y.completed_at }) (fun _ => rfl), h1]
    show some (if (s == "completed") = true then some now else t.completed_at) =
      some t.completed_at
    rw [if_neg (fun hseq => hs (eq_of_beq hseq))]

/-- C4 amended witness: on the sample store, one `complete` then a status move
away keeps the invariant direction and the timestamp. -/
theorem C4_completed_at_witness :
    (∀ tk' ∈ (applyOps sampleDb [Op.complete 1 "System" 7]).tickets,
      tk'.status = "completed" → tk'.completed_at ≠ none) ∧
    sampleDb.tickets.countP (fun tk => tk.completed_at.isSome) ≤
      (applyOps sampleDb [Op.complete 1 "System" 7]).tickets.countP
        (fun tk => tk.completed_at.isSome) ∧
    (findTicket (updateStatus sampleDb 1 "under_review" "Admin" none 9) 1).map
        Ticket.status = some "under_review" ∧
    (findTicket (updateStatus sampleDb 1 "under_review" "Admin" none 9) 1).map
        Ticket.completed_at = some sampleTicket.completed_at :=
  C4_completed_at_amended sampleDb [Op.complete 1 "System" 7] 1 sampleTicket
    "under_review" "Admin" none 9 (by decide) (by decide) (by decide)

/-! ### C5: technician workload invariants -/

/-- An in-place technician update whose updater preserves nonnegativity keeps
the whole roster nonnegative. -/
theorem nonneg_map (i : Nat) (g : Technician → Technician)
    (hg : ∀ te, 0 ≤ te.current_workload → 0 ≤ (g te).current_workload)
    (l : List Technician) (h : ∀ te ∈ l, 0 ≤ te.current_workload) :
    ∀ te' ∈ (l.map (fun te => if te.id == i then g te else te)),
      0 ≤ te'.current_workload := by
  intro te' hmem
  rw [List.mem_map] at hmem
  obtain ⟨te, hte, rfl⟩ := hmem
  by_cases hid : (te.id == i) = true
  · rw [if_pos hid]
    exact hg te (h te hte)
  · rw [if_neg hid]
    exact h te hte

/-- Compensation routing does not touch the technician roster. -/
theorem technicians_route (db2 : DB) (tid : Nat) :
    (routeToCompensation db2 tid).technicians = db2.technicians := by
  simp only [routeToCompensation]
  repeat' split
  all_goals rfl

/-- Assignment keeps every workload nonnegative (it only ever increments). -/
theorem assign_nonneg (db2 : DB)
    (h : ∀ te ∈ db2.technicians, 0 ≤ te.current_workload) (tid : Nat)
    (techId : Option Nat) :
    ∀ te' ∈ (assignTechnician db2 tid techId).technicians,
      0 ≤ te'.current_workload := by
  intro te' hmem
  simp only [assignTechnician] at hmem
  repeat' split at hmem
  all_goals
    first
      | exact h te' hmem
      | (simp only [technicians_log, setTech, technicians_setTicket] at hmem
         refine nonneg_map _ _ ?_ db2.technicians h te' hmem
         intro te hte
         show (0 : Int) ≤ te.current_workload + 1
         omega)

/-- Every ticket-service operation keeps every technician's workload
nonnegative: increments only add, and the decrement is floored at zero. -/
theorem applyOp_workload_nonneg (db : DB) (op : Op)
    (h : ∀ te ∈ db.technicians, 0 ≤ te.current_workload) :
    ∀ te' ∈ (applyOp db op).technicians, 0 ≤ te'.current_workload := by
  cases op with
  | create cid data year digits now =>
    show ∀ te' ∈ (createTicket db cid data year digits now).2.technicians, _
    unfold createTicket
    simp only []
    split
    · exact h
    · intro te' hmem
      refine assign_nonneg _ ?_ _ none te' hmem
      intro te hte
      exact h te hte
  | updStatus tid s cb r now =>
    show ∀ te' ∈ (updateStatus db tid s cb r now).technicians, _
    intro te' hmem
    unfold updateStatus at hmem
    split at hmem
    all_goals exact h te' hmem
  | assign tid techId =>
    exact assign_nonneg db h tid techId
  | record tid d notes techId now =>
    show ∀ te' ∈ (recordTechnicalDecision db tid d notes techId now).2.technicians, _
    intro te' hmem
    simp only [recordTechnicalDecision] at hmem
    repeat' split at hmem
    all_goals
      first
        | exact h te' hmem
        | (simp only [technicians_log, technicians_setTicket, technicians_route,
             setTech] at hmem
           first
             | exact h te' hmem
             | (refine nonneg_map _ _ ?_ db.technicians h te' hmem
                intro te hte
                exact le_max_left 0 _))
  | route tid =>
    show ∀ te' ∈ (routeToCompensation db tid).technicians, _
    rw [technicians_route]
    exact h
  | finance tid so =>
    show ∀ te' ∈ (processFinanceApproval db tid so).technicians, _
    intro te' hmem
    unfold processFinanceApproval at hmem
    split at hmem
    all_goals exact h te' hmem
  | inventory tid tr =>
    show ∀ te' ∈ (processInventoryPreparation db tid tr).technicians, _
    intro te' hmem
    unfold processInventoryPreparation at hmem
    split at hmem
    all_goals exact h te' hmem
  | complete tid cb now =>
    show ∀ te' ∈ (completeTicket db tid cb now).technicians, _
    intro te' hmem
    unfold completeTicket at hmem
    split at hmem
    all_goals exact h te' hmem

/-- Workload nonnegativity holds after any operation sequence. -/
theorem applyOps_workload_nonneg (ops : List Op) (db : DB)
    (h : ∀ te ∈ db.technicians, 0 ≤ te.current_workload) :
    ∀ te' ∈ (applyOps db ops).technicians, 0 ≤ te'.current_workload := by
  induction ops generalizing db with
  | nil => exact h
  | cons op ops ih => exact ih (applyOp db op) (applyOp_workload_nonneg db op h)

/-- A technician selected by auto-assignment is on the roster, active, and
below capacity. -/
theorem autoSelect_mem (ts : List Technician) (te : Technician)
    (h : autoSelect ts = some te) :
    te ∈ ts ∧ te.is_active = true ∧ te.current_workload < te.max_workload := by
  have key : ∀ (l : List Technician) (acc : Option Technician),
      (∀ x ∈ l, x ∈ ts.filter (fun t => t.is_active && t.current_workload < t.max_workload)) →
      (∀ b, acc = some b →
        b ∈ ts.filter (fun t => t.is_active && t.current_workload < t.max_workload)) →
      ∀ b, l.foldl (fun acc t =>
          match acc with
          | none => some t
          | some b => if t.current_workload < b.current_workload then some t else acc)
        acc = some b →
        b ∈ ts.filter (fun t => t.is_active && t.current_workload < t.max_workload) := by
    intro l
    induction l with
    | nil =>
      intro acc _ hacc b hb
      exact hacc b hb
    | cons a l ih =>
      intro acc hl hacc b hb
      refine ih _ (fun x hx => hl x (List.mem_cons_of_mem a hx)) ?_ b hb
      intro b' hb'
      cases acc with
      | none =>
        cases hb'
        exact hl a (List.mem_cons_self a l)
      | some b0 =>
        have hb2 : (if a.current_workload < b0.current_workload then some a
            else some b0) = some b' := hb'
        by_cases hlt : a.current_workload < b0.current_workload
        · rw [if_pos hlt] at hb2
          cases hb2
          exact hl a (List.mem_cons_self a l)
        · rw [if_neg hlt] at hb2
          exact hacc b' hb2
  have hmem : te ∈ ts.filter
      (fun t => t.is_active && t.current_workload < t.max_workload) := by
    refine key _ none (fun x hx => hx) (fun b hb => by cases hb) te ?_
    exact h
  rw [List.mem_filter] at hmem
  obtain ⟨hmem1, hpred⟩ := hmem
  rw [Bool.and_eq_true] at hpred
  exact ⟨hmem1, hpred.1, by simpa using hpred.2⟩

/-- With a ticket present and a technician auto-selected, assignment
increments exactly that technician's workload in the roster. -/
theorem assign_auto_eq (db : DB) (tid : Nat) (t : Ticket) (te : Technician)
    (h1 : findTicket db tid = some t) (hsel : autoSelect db.technicians = some te) :
    (assignTechnician db tid none).technicians =
      db.technicians.map (fun x => if x.id == te.id then
        { x with current_workload := x.current_workload + 1 } else x) := by
  unfold assignTechnician
  simp only [h1, hsel]
  rfl

/-- C5: across any sequence of ticket-service operations no workload goes
negative; and auto-assignment selects only an active technician below
capacity, increments exactly that technician to at most their cap, and leaves
no technician above both their previous workload and their cap. -/
theorem C5_workload_invariants (db : DB) (ops : List Op) (tid : Nat) (t : Ticket)
    (te : Technician)
    (h0 : ∀ x ∈ db.technicians, 0 ≤ x.current_workload)
    (hnd : (db.technicians.map Technician.id).Nodup)
    (h1 : findTicket db tid = some t)
    (hsel : autoSelect db.technicians = some te) :
    (∀ x ∈ (applyOps db ops).technicians, 0 ≤ x.current_workload) ∧
    te.is_active = true ∧
    te.current_workload < te.max_workload ∧
    (assignTechnician db tid none).technicians =
      db.technicians.map (fun x => if x.id == te.id then
        { x with current_workload := x.current_workload + 1 } else x) ∧
    (∀ x' ∈ (assignTechnician db tid none).technicians,
      ∃ x ∈ db.technicians, x'.id = x.id ∧
        x'.current_workload ≤ max x.current_workload x.max_workload) := by
  obtain ⟨hmem, hact, hlt⟩ := autoSelect_mem db.technicians te hsel
  refine ⟨applyOps_workload_nonneg ops db h0, hact, hlt,
    assign_auto_eq db tid t te h1 hsel, ?_⟩
  intro x' hx'
  rw [assign_auto_eq db tid t te h1 hsel, List.mem_map] at hx'
  obtain ⟨x, hx, rfl⟩ := hx'
  by_cases hid : (x.id == te.id) = true
  · rw [if_pos hid]
    refine ⟨x, hx, rfl, ?_⟩
    have hxte : x = te :=
      List.inj_on_of_nodup_map hnd hx hmem (eq_of_beq hid)
    show x.current_workload + 1 ≤ max x.current_workload x.max_workload
    rw [hxte]
    exact le_trans hlt (le_max_right _ _)
  · rw [if_neg hid]
    exact ⟨x, hx, rfl, le_max_left _ _⟩

/-- C5 witness: on the sample store the technician is picked, incremented to
1 ≤ 15, and no workload goes negative across a sample operation sequence. -/
theorem C5_workload_witness :
    (∀ x ∈ (applyOps sampleDb [Op.assign 1 none,
        Op.record 1 "approved" none none 5]).technicians,
      0 ≤ x.current_workload) ∧
    sampleTech.is_active = true ∧
    sampleTech.current_workload < sampleTech.max_workload ∧
    (assignTechnician sampleDb 1 none).technicians =
      sampleDb.technicians.map (fun x => if x.id == sampleTech.id then
        { x with current_workload := x.current_workload + 1 } else x) ∧
    (∀ x' ∈ (assignTechnician sampleDb 1 none).technicians,
      ∃ x ∈ sampleDb.technicians, x'.id = x.id ∧
        x'.current_workload ≤ max x.current_workload x.max_workload) :=
  C5_workload_invariants sampleDb [Op.assign 1 none,
      Op.record 1 "approved" none none 5] 1 sampleTicket sampleTech
    (by decide) (by decide) (by decide) (by decide)

/-! ### C8: ticket-number format and the absence of collision handling -/

/-- One step of the core decimal printer. -/
theorem tdc_succ (b f n : Nat) (ds : List Char) :
    Nat.toDigitsCore b (f + 1) n ds =
      if n / b = 0 then Nat.digitChar (n % b) :: ds
      else Nat.toDigitsCore b f (n / b) (Nat.digitChar (n % b) :: ds) := rfl

/-- With enough fuel, the core decimal printer agrees with `decChars`. -/
theorem tdc_eq_decChars (f : Nat) : ∀ n ds, n < f →
    Nat.toDigitsCore 10 f n ds = decChars n ds := by
  induction f with
  | zero =>
    intro n ds h
    exact absurd h (Nat.not_lt_zero n)
  | succ f ih =>
    intro n ds h
    rw [tdc_succ, decChars]
    by_cases h0 : n / 10 = 0
    · rw [if_pos h0, dif_pos h0]
    · rw [if_neg h0, dif_neg h0]
      exact ih (n / 10) _ (by omega)

/-- The decimal expansion of a four-digit number. -/
theorem decChars_four (n : Nat) (h1 : 1000 ≤ n) (h2 : n < 10000) :
    decChars n [] =
      [Nat.digitChar (n / 10 / 10 / 10 % 10), Nat.digitChar (n / 10 / 10 % 10),
       Nat.digitChar (n / 10 % 10), Nat.digitChar (n % 10)] := by
  have e1 : ¬ n / 10 = 0 := by omega
  have e2 : ¬ n / 10 / 10 = 0 := by omega
  have e3 : ¬ n / 10 / 10 / 10 = 0 := by omega
  have e4 : n / 10 / 10 / 10 / 10 = 0 := by omega
  rw [decChars, dif_neg e1, decChars, dif_neg e2, decChars, dif_neg e3,
    decChars, dif_pos e4]

/-- `Nat.digitChar` of a digit is a digit character. -/
theorem digitChar_isDigit (m : Nat) (h : m < 10) :
    (Nat.digitChar m).isDigit = true := by
  interval_cases m <;> decide

/-- `checkDigits` consumes exactly a block of digit characters. -/
theorem checkDigits_append (l r : List Char) (h : ∀ c ∈ l, c.isDigit = true) :
    checkDigits l.length (l ++ r) = some r := by
  induction l with
  | nil => rfl
  | cons c l ih =>
    show checkDigits (l.length + 1) (c :: (l ++ r)) = some r
    unfold checkDigits
    rw [if_pos (h c (List.mem_cons_self c l))]
    exact ih (fun x hx => h x (List.mem_cons_of_mem c hx))

/-- The generated ticket number matches `^TKT-\d{4}-\d{5}$` whenever the year
has four decimal digits and the five random draws are digit characters. -/
theorem generateTicketNumber_format (year : Nat) (digits : List Char)
    (hy1 : 1000 ≤ year) (hy2 : year < 10000)
    (hl : digits.length = 5) (hd : ∀ c ∈ digits, c.isDigit = true) :
    isTicketNumberFormat (generateTicketNumber year digits) = true := by
  have htd : Nat.toDigits 10 year =
      [Nat.digitChar (year / 10 / 10 / 10 % 10), Nat.digitChar (year / 10 / 10 % 10),
       Nat.digitChar (year / 10 % 10), Nat.digitChar (year % 10)] := by
    show Nat.toDigitsCore 10 (year + 1) year [] = _
    rw [tdc_eq_decChars (year + 1) year [] (Nat.lt_succ_self year)]
    exact decChars_four year hy1 hy2
  have hdata : (generateTicketNumber year digits).data =
      'T' :: 'K' :: 'T' :: '-' :: ((Nat.toDigits 10 year) ++ '-' :: digits) := by
    show ("TKT-" ++ Nat.repr year ++ "-" ++ String.mk digits).data = _
    rw [String.data_append, String.data_append, String.data_append]
    show ['T', 'K', 'T', '-'] ++ (Nat.toDigits 10 year).asString.data ++
      ['-'] ++ digits = _
    show ['T', 'K', 'T', '-'] ++ (Nat.toDigits 10 year) ++ ['-'] ++ digits = _
    simp [List.append_assoc]
  have hfour : checkDigits 4 ((Nat.toDigits 10 year) ++ '-' :: digits) =
      some ('-' :: digits) := by
    rw [htd]
    have := checkDigits_append
      [Nat.digitChar (year / 10 / 10 / 10 % 10), Nat.digitChar (year / 10 / 10 % 10),
       Nat.digitChar (year / 10 % 10), Nat.digitChar (year % 10)] ('-' :: digits) ?_
    · exact this
    · intro c hc
      simp only [List.mem_cons, List.not_mem_nil, or_false] at hc
      rcases hc with rfl | rfl | rfl | rfl
      all_goals exact digitChar_isDigit _ (Nat.mod_lt _ (by omega))
  have hfive : checkDigits 5 digits = some [] := by
    have h0 := checkDigits_append digits [] hd
    rw [List.append_nil, hl] at h0
    exact h0
  unfold isTicketNumberFormat
  rw [hdata]
  show (match checkDigits 4 ((Nat.toDigits 10 year) ++ '-' :: digits) with
    | some ('-' :: rest2) =>
      (match checkDigits 5 rest2 with
       | some [] => true
       | _ => false)
    | _ => false) = true
  rw [hfour]
  show (match checkDigits 5 digits with
    | some [] => true
    | _ => false) = true
  rw [hfive]

/-- `find?` on a list with one appended element falls through to it when
nothing before matches. -/
theorem find?_append_last {α : Type} (l : List α) (p : α → Bool) (a : α)
    (hl : ∀ x ∈ l, p x = false) (ha : p a = true) :
    (l ++ [a]).find? p = some a := by
  induction l with
  | nil => simp [List.find?, ha]
  | cons b l ih =>
    show List.find? p (b :: (l ++ [a])) = some a
    rw [List.find?_cons_of_neg _ (by simp [hl b (List.mem_cons_self b l)])]
    exact ih (fun x hx => hl x (List.mem_cons_of_mem b hx))

/-- A `countP` over a mapped list is unchanged when the map preserves the
predicate pointwise. -/
theorem countP_map_eq {A : Type} (l : List A) (f : A → A) (p : A → Bool)
    (hp : ∀ x, p (f x) = p x) : (l.map f).countP p = l.countP p := by
  rw [List.countP_map]
  have hpf : p ∘ f = p := funext hp
  rw [hpf]

/-- Auto-assignment rewrites only `assigned_technician_id`, so the looked-up
row keeps its `ticket_number`. -/
theorem assign_find_number (db : DB) (tid : Nat) (techId : Option Nat)
    (t0 : Ticket) (h : findTicket db tid = some t0) :
    ∃ t1, findTicket (assignTechnician db tid techId) tid = some t1 ∧
      t1.ticket_number = t0.ticket_number := by
  unfold assignTechnician
  simp only [h]
  repeat' split
  all_goals
    first
      | exact ⟨t0, h, rfl⟩
      | (rename_i te hte
         rw [findTicket_log, findTicket_setTech,
          findTicket_setTicket db tid
            (fun t => { t with assigned_technician_id := some te.id })
            (fun x => rfl), h]
         exact ⟨_, rfl, rfl⟩)

/-- Auto-assignment leaves every ticket number untouched, so counts by ticket
number are preserved exactly. -/
theorem countP_assign_eq (db : DB) (tid : Nat) (techId : Option Nat)
    (num : String) :
    (assignTechnician db tid techId).tickets.countP
        (fun tk => tk.ticket_number == num) =
      db.tickets.countP (fun tk => tk.ticket_number == num) := by
  simp only [assignTechnician, setTicket, setTech, logStatusChange]
  repeat' split
  all_goals
    first
      | rfl
      | (show ((db.tickets.map _).countP _) = db.tickets.countP _
         refine countP_map_eq db.tickets _ _ ?_
         intro x
         by_cases hx : (x.id == tid) = true
         · simp [hx]
         · simp [hx])

/-- C8 amended, collision part: the number is generated once and committed
against the `unique=True` column.  A fresh number is appended and counted once
more; a number already present makes the commit raise `IntegrityError` on the
first attempt — no ticket is returned, nothing is persisted, and no
regenerated number is retried. -/
theorem createTicket_no_retry (db : DB) (cid : Nat) (data : TicketData)
    (year now : Nat) (digits : List Char)
    (hfresh : ∀ tk ∈ db.tickets, tk.id < db.nextTicketId) :
    ((∀ tk ∈ db.tickets, tk.ticket_number ≠ generateTicketNumber year digits) →
      (∃ t, (createTicket db cid data year digits now).1 = some t ∧
        t.ticket_number = generateTicketNumber year digits) ∧
      (createTicket db cid data year digits now).2.tickets.countP
          (fun tk => tk.ticket_number == generateTicketNumber year digits) =
        db.tickets.countP
          (fun tk => tk.ticket_number == generateTicketNumber year digits) + 1) ∧
    (∀ tk ∈ db.tickets, tk.ticket_number = generateTicketNumber year digits →
      (createTicket db cid data year digits now).1 = none ∧
      (createTicket db cid data year digits now).2 = db) := by
  have hfind :
      findTicket (logStatusChange
          { db with tickets := db.tickets ++ [newTicketRow db cid data year digits now],
                    nextTicketId := db.nextTicketId + 1 }
          (newTicketRow db cid data year digits now).id none (some "pending_review")
          "System" (some "Ticket created"))
        (newTicketRow db cid data year digits now).id =
        some (newTicketRow db cid data year digits now) := by
    rw [findTicket_log]
    show (db.tickets ++ [newTicketRow db cid data year digits now]).find?
        (fun t => t.id == (newTicketRow db cid data year digits now).id) =
      some (newTicketRow db cid data year digits now)
    refine find?_append_last db.tickets _ _ ?_ (by simp)
    intro x hx
    have hlt := hfresh x hx
    show (x.id == db.nextTicketId) = false
    exact beq_eq_false_iff_ne.mpr (by omega)
  obtain ⟨t1, ht1, hnum⟩ :=
    assign_find_number _ ((newTicketRow db cid data year digits now).id) none _ hfind
  constructor
  · intro hno
    have hcond : ¬ ((db.tickets.any (fun tk => tk.ticket_number ==
        (newTicketRow db cid data year digits now).ticket_number)) = true) := by
      intro hc
      obtain ⟨t2, ht2, hp⟩ := List.any_eq_true.mp hc
      exact hno t2 ht2 (by simpa using hp)
    constructor
    · refine ⟨t1, ?_, ?_⟩
      · simp only [createTicket]
        rw [if_neg hcond, ht1, Option.getD_some]
      · rw [hnum]
        rfl
    · simp only [createTicket]
      rw [if_neg hcond, countP_assign_eq]
      show ((db.tickets ++ [newTicketRow db cid data year digits now]).countP _) = _
      rw [List.countP_append]
      simp [newTicketRow]
  · intro tk htk hnumtk
    have hcond : (db.tickets.any (fun tk2 => tk2.ticket_number ==
        (newTicketRow db cid data year digits now).ticket_number)) = true := by
      refine List.any_eq_true.mpr ⟨tk, htk, ?_⟩
      show (tk.ticket_number == generateTicketNumber year digits) = true
      rw [hnumtk]
      exact beq_self_eq_true _
    constructor
    · simp only [createTicket]
      rw [if_pos hcond]
    · simp only [createTicket]
      rw [if_pos hcond]

/-- C8 counterexample: a second creation drawing the same five random digits
hits the unique column constraint on its very first attempt — it returns no
ticket and persists nothing — instead of regenerating the number and retrying
as claimed. -/
theorem C8_duplicate_counterexample :
    ((createTicket emptyDb 1 {} 2025 ['0', '0', '0', '0', '1'] 0).2.tickets.map
      (fun tk => tk.ticket_number)) = ["TKT-2025-00001"] ∧
    (createTicket (createTicket emptyDb 1 {} 2025 ['0', '0', '0', '0', '1'] 0).2
        1 {} 2025 ['0', '0', '0', '0', '1'] 0).1 = none ∧
    (createTicket (createTicket emptyDb 1 {} 2025 ['0', '0', '0', '0', '1'] 0).2
        1 {} 2025 ['0', '0', '0', '0', '1'] 0).2 =
      (createTicket emptyDb 1 {} 2025 ['0', '0', '0', '0', '1'] 0).2 := by
  decide

/-- C8 amended: every created ticket's number matches `^TKT-\d{4}-\d{5}$`
while the year has four decimal digits; uniqueness is enforced only by the
column's `unique=True` constraint: the number is generated once with no
collision check, and on a colliding draw the commit raises `IntegrityError` on
the first attempt — nothing is persisted and there is no regeneration, no
retry and no handled error path. -/
theorem C8_format_no_retry_amended (db : DB) (cid : Nat) (data : TicketData)
    (year now : Nat) (digits : List Char)
    (hy1 : 1000 ≤ year) (hy2 : year < 10000)
    (hl : digits.length = 5) (hd : ∀ c ∈ digits, c.isDigit = true)
    (hfresh : ∀ tk ∈ db.tickets, tk.id < db.nextTicketId) :
    isTicketNumberFormat (generateTicketNumber year digits) = true ∧
    ((∀ tk ∈ db.tickets, tk.ticket_number ≠ generateTicketNumber year digits) →
      (∃ t, (createTicket db cid data year digits now).1 = some t ∧
        t.ticket_number = generateTicketNumber year digits) ∧
      (createTicket db cid data year digits now).2.tickets.countP
          (fun tk => tk.ticket_number == generateTicketNumber year digits) =
        db.tickets.countP
          (fun tk => tk.ticket_number == generateTicketNumber year digits) + 1) ∧
    (∀ tk ∈ db.tickets, tk.ticket_number = generateTicketNumber year digits →
      (createTicket db cid data year digits now).1 = none ∧
      (createTicket db cid data year digits now).2 = db) :=
  ⟨generateTicketNumber_format year digits hy1 hy2 hl hd,
   (createTicket_no_retry db cid data year now digits hfresh).1,
   (createTicket_no_retry db cid data year now digits hfresh).2⟩

/-- C8 amended witness: a concrete creation on the sample store. -/
theorem C8_format_no_retry_witness :
    isTicketNumberFormat (generateTicketNumber 2025 ['0', '0', '0', '0', '7']) = true ∧
    ((∀ tk ∈ sampleDb.tickets, tk.ticket_number ≠
        generateTicketNumber 2025 ['0', '0', '0', '0', '7']) →
      (∃ t, (createTicket sampleDb 1 {} 2025 ['0', '0', '0', '0', '7'] 3).1 = some t ∧
        t.ticket_number = generateTicketNumber 2025 ['0', '0', '0', '0', '7']) ∧
      (createTicket sampleDb 1 {} 2025 ['0', '0', '0', '0', '7'] 3).2.tickets.countP
          (fun tk => tk.ticket_number == generateTicketNumber 2025
            ['0', '0', '0', '0', '7']) =
        sampleDb.tickets.countP
          (fun tk => tk.ticket_number == generateTicketNumber 2025
            ['0', '0', '0', '0', '7']) + 1) ∧
    (∀ tk ∈ sampleDb.tickets, tk.ticket_number =
        generateTicketNumber 2025 ['0', '0', '0', '0', '7'] →
      (createTicket sampleDb 1 {} 2025 ['0', '0', '0', '0', '7'] 3).1 = none ∧
      (createTicket sampleDb 1 {} 2025 ['0', '0', '0', '0', '7'] 3).2 = sampleDb) :=
  C8_format_no_retry_amended sampleDb 1 {} 2025 3 ['0', '0', '0', '0', '7']
    (by decide) (by decide) (by decide) (by decide) (by decide)

end Kapci
